import Mathlib

/-!
# Tensor region store of the approx runtime (database.h)

A shallow embedding of `approx/runtime/src/database/database.h`: the scalar
type mapper, the per-stream bookkeeping of `HDF5TensorRegionView`
(`initializeTensorData`, `writeTensorData`, `createTypeAttribute`), the
input/output alternation of a region, and the handle check of
`HDF5DB::TensorToDB`.

Conventions of the embedding.

* The process state is passed explicitly.  A call either completes
  (`Outcome.done s`) or stops the process (`Outcome.abort e s`); in the second
  case `s` is the state at the moment the process stopped, so that "nothing
  was written" can be stated.
* `assert` depends on the build.  Whether `NDEBUG` is defined is a parameter
  of the embedding (`Build.NDEBUG`): without it a failing `assert` stops the
  process, with it the `assert` is no code at all and the statements after it
  run.
* `HDF5_ERROR(id)` stops the process when the library reports a failure.
* Undefined behaviour of the C++ source (control reaching the end of a
  function that returns a value, an access outside a buffer) is an outcome of
  its own: the call does not return, and no failure is reported either.
* The HDF5 library itself is not part of the repository.  A dataset handle is
  embedded as the object it denotes: its extent, maximum extent, chunk shape,
  attributes and cells.  A library call fails exactly when its arguments do
  not fit the object they address (rank mismatch, extent above the maximum,
  selection outside the extent, attribute already present, invalid handle).
  Failures of the medium and limits of the library on sizes are left out, and
  so are the calls that only release a handle (`H5Sclose`, `H5Pclose`,
  `H5Aclose`).
* `hsize_t` is an unsigned 64-bit integer: arithmetic on it is taken modulo
  `2 ^ 64`.
* A tensor buffer is raw memory, a sequence of bytes.  `H5Dwrite` reads from
  it as many bytes as the elements it is asked to move take in the memory
  type it is passed, whatever the tensor itself holds.
* Text printed to `std::cout` or `stderr` is not part of the state.
-/

namespace ApproxDB

/-! ## Scalar types -/

/-- C scalar types that can stand in the `CType` column of an
`APPROX_TYPE(Enum, CType, nameOfType)` line.  The six types that
`getHDF5DataType` tests for are listed; `other` is any other C type. -/
inductive CType where
  | double
  | float
  | int
  | long
  | short
  | unsignedChar
  | other (spelling : String)
  deriving DecidableEq, Repr

/-- Native HDF5 type identifiers returned by `getHDF5DataType`. -/
inductive HdfType where
  | H5T_NATIVE_DOUBLE
  | H5T_NATIVE_FLOAT
  | H5T_NATIVE_INT
  | H5T_NATIVE_LONG
  | H5T_NATIVE_SHORT
  | H5T_NATIVE_UCHAR
  deriving DecidableEq, Repr

/-- Ways in which a call stops the process instead of returning.  The first
four carry the names the specification gives to the failures; the last two are
undefined behaviour of the C++ source. -/
inductive Err where
  /-- One of the two `assert`s on `expect_input` failed (build without `NDEBUG`). -/
  | AlternationViolationError
  /-- The bounds check of `TensorToDB` printed its diagnostic and called `exit(-1)`. -/
  | InvalidHandleError
  /-- The `assert` in the last branch of `getHDF5DataType` failed (build without
  `NDEBUG`). -/
  | UnsupportedTypeError
  /-- An `HDF5_ERROR` check saw a negative identifier and called `exit(-1)`. -/
  | StorageWriteError
  /-- Control reached the closing brace of a function returning `hid_t` without
  a `return`: in `getHDF5TypeFromApproxType`, or in `getHDF5DataType` when
  `NDEBUG` removes its `assert`. -/
  | MissingReturn
  /-- An access outside a buffer: `shape[0]` on an empty vector, or a read
  past the end of the tensor's buffer. -/
  | OutOfBounds
  deriving DecidableEq, Repr

/-- Result of a call on a state of type `σ`. -/
inductive Outcome (σ : Type) where
  | done (s : σ)
  | abort (e : Err) (s : σ)

/-- State in which a call left the process, whether it returned or not. -/
def Outcome.state {σ : Type} : Outcome σ → σ
  | .done s => s
  | .abort _ s => s

/-- Value of an `ApproxType` enumerator, as the `int` it converts to. -/
abbrev ApproxType := Int

/-- What the build fixes.  `defs` and `INVALID` are the contents of
`clang/Basic/approxTypes.def` and the enumerator `INVALID`: the file is not
among the sources, so the table is a parameter of the embedding, with one
pair `(Enum, CType)` per `APPROX_TYPE` line.  `NDEBUG` tells whether the
macro `NDEBUG` is defined, which turns every `assert` into no code. -/
structure Build where
  defs : List (ApproxType × CType)
  INVALID : ApproxType
  NDEBUG : Bool

/-- Embedding of `getHDF5DataType<T>`, database.h lines 25-42: a chain of
`std::is_same` tests, ending in `assert(False && ...)`.  Without `NDEBUG` the
`assert` stops the process; with `NDEBUG` the last branch is empty and control
reaches the end of the function. -/
def getHDF5DataType (NDEBUG : Bool) : CType → Except Err HdfType
  | .double => .ok .H5T_NATIVE_DOUBLE
  | .float => .ok .H5T_NATIVE_FLOAT
  | .int => .ok .H5T_NATIVE_INT
  | .long => .ok .H5T_NATIVE_LONG
  | .short => .ok .H5T_NATIVE_SHORT
  | .unsignedChar => .ok .H5T_NATIVE_UCHAR
  | .other _ =>
    -- assert(False && "Invalid type passed to getHDF5DataType");
    if !NDEBUG then .error .UnsupportedTypeError
    else .error .MissingReturn

/-- Embedding of `getHDF5TypeFromApproxType`, database.h lines 44-53: one
`case Enum: return getHDF5DataType<CType>();` per table line, then
`case INVALID:` which prints a diagnostic and has no `return`, and no
`default:`.  For `INVALID` and for a value that no `case` matches, control
reaches the end of the function. -/
def getHDF5TypeFromApproxType (T : Build) (Type_ : ApproxType) : Except Err HdfType :=
  match T.defs.lookup Type_ with
  | some ctype => getHDF5DataType T.NDEBUG ctype
  | none =>
    if Type_ = T.INVALID then
      -- std::cout << "INVALID DATA TYPE passed in argument list\n";
      .error .MissingReturn
    else
      .error .MissingReturn

/-- Modelled from the spec: the enumeration generated from
`clang/Basic/approxTypes.def`, which is not among the sources.  Section 4.4 of
the specification lists six scalar kinds (64-bit float, 32-bit float, 32-bit
signed integer, long signed integer, 16-bit signed integer, unsigned byte);
they are numbered in that order and `INVALID` follows them.  The build flag
is left open. -/
def specBuild (NDEBUG : Bool) : Build where
  defs := [(0, .double), (1, .float), (2, .int), (3, .long), (4, .short), (5, .unsignedChar)]
  INVALID := 6
  NDEBUG := NDEBUG

/-! ## The storage backend -/

/-- One byte of memory or of a dataset. -/
abbrev Byte := Nat

/-- The call `H5Tget_size(type)`: the size in bytes of one element of a native
type, on the LP64 platforms the runtime is built for (`long` is 8 bytes). -/
def H5Tget_size : HdfType → Nat
  | .H5T_NATIVE_DOUBLE => 8
  | .H5T_NATIVE_FLOAT => 4
  | .H5T_NATIVE_INT => 4
  | .H5T_NATIVE_LONG => 8
  | .H5T_NATIVE_SHORT => 2
  | .H5T_NATIVE_UCHAR => 1

/-- Number of values of `hsize_t`. -/
def HSIZE_MOD : Nat := 2 ^ 64

/-- The library constant `H5S_UNLIMITED`, which is `(hsize_t)(-1)`. -/
def H5S_UNLIMITED : Nat := HSIZE_MOD - 1

/-- Number of elements of an array of the given dimensions. -/
def numElements : List Nat → Nat
  | [] => 1
  | d :: ds => d * numElements ds

/-- Whether `idx` is a coordinate inside the box at the origin with sides `dims`. -/
def inExtent : List Nat → List Nat → Bool
  | [], [] => true
  | d :: ds, i :: idx => decide (i < d) && inExtent ds idx
  | _, _ => false

/-- Whether `idx` lies in the hyperslab with corner `start` and sides `count`. -/
def inSlab : List Nat → List Nat → List Nat → Bool
  | [], [], [] => true
  | s :: start, c :: count, i :: idx => decide (s ≤ i) && decide (i < s + c) && inSlab start count idx
  | _, _, _ => false

/-- Position of the point `idx` of the hyperslab `(start, count)` in the
row-major order of the hyperslab, which is the order in which `H5Dwrite` takes
the elements out of the memory buffer. -/
def slabOffset : List Nat → List Nat → List Nat → Nat
  | s :: start, _ :: count, i :: idx => (i - s) * numElements count + slabOffset start count idx
  | _, _, _ => 0

/-- Whether every dimension is within its maximum, `H5S_UNLIMITED` standing
for no maximum. -/
def fitsMax : List Nat → List Nat → Bool
  | [], [] => true
  | d :: ds, m :: ms => (decide (m = H5S_UNLIMITED) || decide (d ≤ m)) && fitsMax ds ms
  | _, _ => false

/-- Whether the hyperslab `(start, count)` lies inside the extent `dims`. -/
def slabInExtent : List Nat → List Nat → List Nat → Bool
  | [], [], [] => true
  | d :: dims, s :: start, c :: count => decide (s + c ≤ d) && slabInExtent dims start count
  | _, _, _ => false

/-- What `H5Screate_simple` returns: a simple dataspace. -/
structure Dataspace where
  dims : List Nat
  maxDims : List Nat
  deriving DecidableEq, Repr

/-- What a dataset creation property list holds after `H5Pset_layout` and
`H5Pset_chunk`. -/
structure CreateProps where
  chunked : Bool
  chunkDims : List Nat
  deriving DecidableEq, Repr

/-- The object behind a dataset handle (`hid_t dset`).  `cells idx` is the
element at the coordinate `idx`, as the bytes the file holds for it. -/
structure Dataset where
  name : String
  dtype : HdfType
  dims : List Nat
  maxDims : List Nat
  chunkDims : List Nat
  attrs : List (String × Int)
  cells : List Nat → List Byte

/-- The call `H5Screate_simple(rank, dims, maxdims)`: fails when a dimension is
above its maximum. -/
def H5Screate_simple (dims maxDims : List Nat) : Option Dataspace :=
  if fitsMax dims maxDims then some ⟨dims, maxDims⟩ else none

/-- The calls `H5Pcreate(H5P_DATASET_CREATE)`, `H5Pset_layout(pList, H5D_CHUNKED)`
and `H5Pset_chunk(pList, rank, chunk_dims)`, none of whose results the source
checks. -/
def H5Pset_chunk (chunk_dims : List Nat) : CreateProps :=
  ⟨true, chunk_dims⟩

/-- The call `H5Dcreate(group, name, type, space, lcpl, dcpl, dapl)`: a new
dataset with the extent of the dataspace, no attribute, and every cell at the
fill value zero.  Fails when the chunk shape has another rank than the
dataspace. -/
def H5Dcreate (name : String) (type : HdfType) (space : Dataspace) (pList : CreateProps) :
    Option Dataset :=
  if pList.chunkDims.length = space.dims.length then
    some ⟨name, type, space.dims, space.maxDims, pList.chunkDims, [],
      fun _ => List.replicate (H5Tget_size type) 0⟩
  else none

/-- The call `H5Dset_extent(dset, size)`: fails when `size` has another rank
than the dataset or exceeds its maximum dimensions; cells that enter the
extent hold the fill value. -/
def H5Dset_extent (ds : Dataset) (size : List Nat) : Option Dataset :=
  if fitsMax size ds.maxDims then
    some { ds with
      dims := size
      cells := fun idx =>
        if inExtent ds.dims idx then ds.cells idx
        else List.replicate (H5Tget_size ds.dtype) 0 }
  else none

/-- The calls `H5Sselect_hyperslab(fileSpace, H5S_SELECT_SET, start, NULL, count, NULL)`,
`H5Screate_simple(rank, memCount, NULL)` and
`H5Dwrite(dset, memType, memSpace, fileSpace, H5P_DEFAULT, buf)` taken
together.  The library reports a failure when the hyperslab is not inside the
extent or when the memory space does not have as many elements as the
hyperslab.  Otherwise it takes `buf` for an array of elements of `memType`:
it reads `numElements memCount * H5Tget_size memType` bytes from it, which is
a read past the end of the buffer when `buf` is shorter, and element `k` of
the buffer, the bytes from `k * H5Tget_size memType` on, goes to the `k`-th
cell of the hyperslab in row-major order.  The source passes for `memType`
the type the dataset was created with (lines 153 and 180), so the library
converts nothing and the bytes are stored as they are. -/
def H5Dwrite (ds : Dataset) (memType : HdfType) (memCount start count : List Nat)
    (buf : List Byte) : Except Err Dataset :=
  if slabInExtent ds.dims start count && decide (numElements memCount = numElements count) then
    if buf.length < numElements memCount * H5Tget_size memType then
      .error .OutOfBounds
    else
      .ok { ds with
        cells := fun idx =>
          if inSlab start count idx then
            (buf.drop (slabOffset start count idx * H5Tget_size memType)).take
              (H5Tget_size memType)
          else ds.cells idx }
  else .error .StorageWriteError

/-- The calls `H5Acreate(dset, name, H5T_NATIVE_INT, scalar space, ...)` and
`H5Awrite(attr, H5T_NATIVE_INT, &value)`: fails when the dataset already has
an attribute of that name. -/
def H5Acreate_write (ds : Dataset) (name : String) (value : Int) : Option Dataset :=
  match ds.attrs.lookup name with
  | some _ => none
  | none => some { ds with attrs := ds.attrs ++ [(name, value)] }

/-- The coordinates of the hyperslab `(start, count)` in row-major order, the
order in which `H5Dread` delivers its cells. -/
def slabPoints : List Nat → List Nat → List (List Nat)
  | s :: start, c :: count =>
      (List.range c).flatMap fun i => (slabPoints start count).map fun p => (s + i) :: p
  | _, _ => [[]]

/-- The call `H5Dread` on the hyperslab `(start, count)` of the dataset, with
the type of the dataset as memory type: the bytes of the cells of the
hyperslab, one cell after the other. -/
def H5Dread (ds : Dataset) (start count : List Nat) : Option (List Byte) :=
  if slabInExtent ds.dims start count then
    some ((slabPoints start count).map ds.cells).flatten
  else none

/-! ## Streams -/

/-- The interface the source uses of its template parameter `Tensor`:
`tensor.dim()`, `tensor.size(i)` and `TensorImpl::data_ptr(tensor)`.  `data`
is the memory behind `data_ptr`, byte by byte: the source never asks the
tensor for the type of its elements. -/
structure Tensor where
  sizes : List Nat
  data : List Byte
  deriving DecidableEq, Repr

/-- The call `tensor.dim()`. -/
def Tensor.dim (t : Tensor) : Nat := t.sizes.length

/-- The call `tensor.size(i)`. -/
def Tensor.size (t : Tensor) (i : Nat) : Nat := t.sizes.getD i 0

/-- The class `HDF5TensorRegionView::TensorData`, database.h lines 70-87.  The
members `dset`, `memSpace`, `approx_type` and `hdf_native_type` have no
initializer: they are `none` until `initializeTensorData` assigns them. -/
structure TensorData where
  dset_name : String
  dset : Option Dataset
  memSpace : Option Dataspace
  shape : List Nat
  initialized : Bool
  approx_type : Option ApproxType
  hdf_native_type : Option HdfType

/-- A default-constructed `TensorData`: empty name, empty shape,
`initialized = false`. -/
def TensorData.fresh : TensorData :=
  ⟨"", none, none, [], false, none, none⟩

/-- The member `isInitialized()`. -/
def TensorData.isInitialized (td : TensorData) : Bool := td.initialized

/-- Embedding of `createTypeAttribute`, database.h lines 197-216: creates the
scalar `int` attribute "type" on the dataset and writes `static_cast<int>(type)`
into it; each library call is followed by `HDF5_ERROR`. -/
def createTypeAttribute (dset : Dataset) (type : ApproxType) : Option Dataset :=
  let type_int : Int := type
  H5Acreate_write dset "type" type_int

/-- Embedding of `initializeTensorData`, database.h lines 145-191. -/
def initializeTensorData (T : Build) (tensorData : TensorData) (name : String)
    (tensor : Tensor) (DType : ApproxType) : Outcome TensorData :=
  if tensorData.initialized then
    .done tensorData
  else
    match getHDF5TypeFromApproxType T DType with
    | .error e => .abort e tensorData
    | .ok hdftype =>
      let tensorData := { tensorData with
        hdf_native_type := some hdftype
        approx_type := some DType
        dset_name := name }
      let ndim := tensor.dim
      -- dims[0] = 0; maxDims[0] = H5S_UNLIMITED; dims[i + 1] = maxDims[i + 1] = tensor.size(i)
      let dims := 0 :: (List.range ndim).map tensor.size
      let maxDims := H5S_UNLIMITED :: (List.range ndim).map tensor.size
      -- std::copy(dims, dims + ndim + 1, std::back_inserter(tensorData.shape))
      let tensorData := { tensorData with shape := tensorData.shape ++ dims }
      match H5Screate_simple dims maxDims with
      | none => .abort .StorageWriteError tensorData
      | some memSpace =>
        let tensorData := { tensorData with memSpace := some memSpace }
        -- chunk_dims[0] = 1; chunk_dims[i + 1] = tensor.size(i)
        let chunk_dims := 1 :: (List.range ndim).map tensor.size
        let pList := H5Pset_chunk chunk_dims
        match H5Dcreate name hdftype memSpace pList with
        | none => .abort .StorageWriteError tensorData
        | some dSetTmp =>
          match createTypeAttribute dSetTmp DType with
          | none => .abort .StorageWriteError tensorData
          | some dSetTmp =>
            .done { tensorData with dset := some dSetTmp, initialized := true }

/-- Embedding of `writeTensorData`, database.h lines 98-143.  `name` and
`DType` are only used when the stream is not yet initialized; the memory type
passed to `H5Dwrite` is the one recorded in the stream. -/
def writeTensorData (T : Build) (tensorData : TensorData) (tensor : Tensor)
    (name : String) (DType : ApproxType) : Outcome TensorData :=
  match (if !tensorData.isInitialized then initializeTensorData T tensorData name tensor DType
         else .done tensorData) with
  | .abort e tensorData => .abort e tensorData
  | .done tensorData =>
    -- auto memSpace = H5Dget_space(tensorData.dset); HDF5_ERROR(memSpace);
    match tensorData.dset with
    | none => .abort .StorageWriteError tensorData
    | some dset =>
      match tensorData.shape with
      | [] => .abort .OutOfBounds tensorData
      | oldshape :: rest =>
        -- shape[0] = 1; shape[0] = oldshape + 1;
        let shape := (oldshape + 1) % HSIZE_MOD :: rest
        let tensorData := { tensorData with shape := shape }
        match H5Dset_extent dset shape with
        | none => .abort .StorageWriteError tensorData
        | some dset =>
          let tensorData := { tensorData with dset := some dset }
          -- start[0] = tensorData.shape[0] - 1; std::fill(start.begin() + 1, start.end(), 0);
          let start := ((oldshape + 1) % HSIZE_MOD + HSIZE_MOD - 1) % HSIZE_MOD
                        :: List.replicate rest.length 0
          -- std::copy(shape.begin(), shape.end(), count.begin()); count[0] = 1;
          let count := 1 :: rest
          -- auto *data = TensorImpl::data_ptr(tensor);
          let data := tensor.data
          -- H5Dwrite(tensorData.dset, tensorData.hdf_native_type, newMemSpace, fileSpace, ...)
          match tensorData.hdf_native_type with
          | none => .abort .StorageWriteError tensorData
          | some memType =>
            match H5Dwrite dset memType count start count data with
            | .error e => .abort e tensorData
            | .ok dset => .done { tensorData with dset := some dset }

/-! ## Regions and the registry -/

/-- The class `HDF5TensorRegionView`, database.h lines 69-253.  `file` and
`regionGroup` are library handles that this part of the source only passes
on. -/
structure HDF5TensorRegionView where
  file : Nat
  regionGroup : Nat
  addr : Nat
  regionName : String
  IptTensorData : TensorData
  OptTensorData : TensorData
  expect_input : Bool

/-- A region as its in-class initializers leave it: `expect_input = true`
(line 96) and two default-constructed streams (line 76). -/
def HDF5TensorRegionView.isFresh (r : HDF5TensorRegionView) : Prop :=
  r.expect_input = true ∧ r.IptTensorData = TensorData.fresh ∧ r.OptTensorData = TensorData.fresh

/-- A region in the state of `isFresh`. -/
def HDF5TensorRegionView.fresh (file regionGroup addr : Nat) (regionName : String) :
    HDF5TensorRegionView :=
  ⟨file, regionGroup, addr, regionName, TensorData.fresh, TensorData.fresh, true⟩

/-- Embedding of `writeInputTensor`, database.h lines 224-233.  The `assert`
is a check only in a build without `NDEBUG`. -/
def writeInputTensor (T : Build) (r : HDF5TensorRegionView) (tensor : Tensor)
    (AT : ApproxType) : Outcome HDF5TensorRegionView :=
  -- assert(expect_input && "Writing input tensor twice?");
  if !T.NDEBUG && !r.expect_input then
    .abort .AlternationViolationError r
  else
    match (if !r.IptTensorData.isInitialized then
             initializeTensorData T r.IptTensorData "input" tensor AT
           else .done r.IptTensorData) with
    | .abort e td => .abort e { r with IptTensorData := td }
    | .done td =>
      match writeTensorData T td tensor td.dset_name AT with
      | .abort e td => .abort e { r with IptTensorData := td }
      | .done td => .done { r with IptTensorData := td, expect_input := false }

/-- Embedding of `writeOutputTensor`, database.h lines 234-243.  The `assert`
is a check only in a build without `NDEBUG`. -/
def writeOutputTensor (T : Build) (r : HDF5TensorRegionView) (tensor : Tensor)
    (AT : ApproxType) : Outcome HDF5TensorRegionView :=
  -- assert(!expect_input && "Writing output tensor before input tensor?");
  if !T.NDEBUG && r.expect_input then
    .abort .AlternationViolationError r
  else
    match (if !r.OptTensorData.isInitialized then
             initializeTensorData T r.OptTensorData "output" tensor AT
           else .done r.OptTensorData) with
    | .abort e td => .abort e { r with OptTensorData := td }
    | .done td =>
      match writeTensorData T td tensor td.dset_name AT with
      | .abort e td => .abort e { r with OptTensorData := td }
      | .done td => .done { r with OptTensorData := td, expect_input := true }

/-- Embedding of `writeTensor`, database.h lines 245-252. -/
def writeTensor (T : Build) (r : HDF5TensorRegionView) (tensor : Tensor)
    (AT : ApproxType) : Outcome HDF5TensorRegionView :=
  if r.expect_input then
    writeInputTensor T r tensor AT
  else
    writeOutputTensor T r tensor AT

/-- The class `HDF5DB`, database.h lines 280-307.  `regions` is a vector of
pointers; each pointer is embedded as the region object it points to, one
object per entry. -/
structure HDF5DB where
  file : Nat
  regions : List HDF5TensorRegionView

/-- Embedding of `HDF5DB::TensorToDB`, database.h lines 293-303.  `Region` is
the handle, a `void *` that the source casts to `uintptr_t`. -/
def TensorToDB (T : Build) (db : HDF5DB) (Region : Nat) (tensor : Tensor)
    (AT : ApproxType) : Outcome HDF5DB :=
  let index := Region
  if h : index >= db.regions.length then
    -- std::cout << "Index (" << index << " should never be larger than ..."; exit(-1);
    .abort .InvalidHandleError db
  else
    match writeTensor T (db.regions.get ⟨index, by omega⟩) tensor AT with
    | .abort e r => .abort e { db with regions := db.regions.set index r }
    | .done r => .done { db with regions := db.regions.set index r }

/-- Number of rows a stream holds: `shape[0]` once the stream is initialized,
none before. -/
def TensorData.rowCount (td : TensorData) : Nat :=
  if td.initialized then td.shape.headD 0 else 0

/-- Row `i` of a stream as `H5Dread` returns it for the hyperslab
`start = [i, 0, ..., 0]`, `count = [1, shape[1..]]`: the bytes of the row. -/
def TensorData.readRow (td : TensorData) (i : Nat) : Option (List Byte) :=
  match td.dset with
  | none => none
  | some dset =>
    H5Dread dset (i :: List.replicate (dset.dims.length - 1) 0) (1 :: dset.dims.tail)

/-! ## Sequences of calls -/

/-- Successive calls of `writeTensorData` on one stream, each with its tensor,
name and scalar type; stops at the first call that does not return. -/
def writeTensorDataSeq (T : Build) (td : TensorData) :
    List (Tensor × String × ApproxType) → Outcome TensorData
  | [] => .done td
  | (tensor, name, DType) :: calls =>
    match writeTensorData T td tensor name DType with
    | .abort e s => .abort e s
    | .done s => writeTensorDataSeq T s calls

/-- Successive calls of `writeTensor` on one region; stops at the first call
that does not return. -/
def writeTensorSeq (T : Build) (r : HDF5TensorRegionView) :
    List (Tensor × ApproxType) → Outcome HDF5TensorRegionView
  | [] => .done r
  | (tensor, AT) :: calls =>
    match writeTensor T r tensor AT with
    | .abort e s => .abort e s
    | .done s => writeTensorSeq T s calls

/-- Successive pairs of calls, `writeInputTensor` then `writeOutputTensor`, on
one region; stops at the first call that does not return. -/
def writePairSeq (T : Build) (r : HDF5TensorRegionView) :
    List ((Tensor × ApproxType) × (Tensor × ApproxType)) → Outcome HDF5TensorRegionView
  | [] => .done r
  | ((tin, ATin), (tout, ATout)) :: calls =>
    match writeInputTensor T r tin ATin with
    | .abort e s => .abort e s
    | .done s =>
      match writeOutputTensor T s tout ATout with
      | .abort e s => .abort e s
      | .done s => writePairSeq T s calls

/-- The stream that `initializeTensorData` leaves when it runs on the
uninitialized stream `td` and the type mapper returns `hdftype`. -/
def TensorData.initializedFrom (td : TensorData) (name : String) (tensor : Tensor)
    (DType : ApproxType) (hdftype : HdfType) : TensorData where
  dset_name := name
  dset := some ⟨name, hdftype, 0 :: tensor.sizes, H5S_UNLIMITED :: tensor.sizes,
                1 :: tensor.sizes, [("type", DType)],
                fun _ => List.replicate (H5Tget_size hdftype) 0⟩
  memSpace := some ⟨0 :: tensor.sizes, H5S_UNLIMITED :: tensor.sizes⟩
  shape := td.shape ++ 0 :: tensor.sizes
  initialized := true
  approx_type := some DType
  hdf_native_type := some hdftype

/-! ## Invariants used in the proofs -/

/-- A stream as the program can hold it: no shape before initialization; once
initialized, a dataset whose extent is the recorded shape, which is not empty;
and a row count that is a value of `hsize_t`. -/
def StreamOK (td : TensorData) : Prop :=
  (td.initialized = false → td.shape = []) ∧
  (td.initialized = true → td.shape ≠ [] ∧ ∃ ds, td.dset = some ds ∧ ds.dims = td.shape) ∧
  td.rowCount < HSIZE_MOD

/-- A region after `k` successful calls of `writeTensor` on a fresh region. -/
def RegionOK (r : HDF5TensorRegionView) (k : Nat) : Prop :=
  StreamOK r.IptTensorData ∧ StreamOK r.OptTensorData ∧
  r.IptTensorData.rowCount = (k + 1) / 2 ∧ r.OptTensorData.rowCount = k / 2 ∧
  r.expect_input = decide (k % 2 = 0)

/-- An initialized stream of element type `hdftype` that holds the rows
`rows`, each of shape `sizes`: the recorded shape and the extent of the
dataset are `[rows.length, sizes...]`, the dataset can grow in its first
dimension only, and reading row `i` of the dataset gives the bytes `rows[i]`. -/
def StreamRows (td : TensorData) (hdftype : HdfType) (sizes : List Nat)
    (rows : List (List Byte)) : Prop :=
  td.initialized = true ∧ td.shape = rows.length :: sizes ∧ rows.length < HSIZE_MOD ∧
  td.hdf_native_type = some hdftype ∧
  ∃ ds, td.dset = some ds ∧ ds.dims = rows.length :: sizes ∧
    ds.maxDims = H5S_UNLIMITED :: sizes ∧
    ∀ (i : Nat) (h : i < rows.length),
      H5Dread ds (i :: List.replicate sizes.length 0) (1 :: sizes) = some (rows.get ⟨i, h⟩)

/-! ## The example scenario of the specification -/

/-- The region `loopA` of the example scenario, as `InstantiateRegion` hands
it out. -/
def exampleRegion : HDF5TensorRegionView :=
  HDF5TensorRegionView.fresh 1 2 4096 "loopA"

/-- The `size` bytes of the unsigned integer `v`, least significant byte
first, as x86-64 lays them out in memory. -/
def leBytes (size v : Nat) : List Byte :=
  (List.range size).map fun k => v / 256 ^ k % 256

/-- The input tensor `[1.0, 2.0]` of shape `[2]`: two 64-bit floats, given by
their bit patterns. -/
def exampleInput : Tensor :=
  ⟨[2], leBytes 8 0x3FF0000000000000 ++ leBytes 8 0x4000000000000000⟩

/-- The output tensor `[3.0]` of shape `[1]`. -/
def exampleOutput : Tensor :=
  ⟨[1], leBytes 8 0x4008000000000000⟩

/-- The tensor `[4.0, 5.0]` of shape `[2]`. -/
def exampleInput2 : Tensor :=
  ⟨[2], leBytes 8 0x4010000000000000 ++ leBytes 8 0x4014000000000000⟩

/-- The four calls of `writeTensor` of the example scenario, each with the
scalar type numbered 0, the 64-bit float. -/
def exampleCalls : List (Tensor × ApproxType) :=
  [(exampleInput, 0), (exampleOutput, 0), (exampleInput2, 0),
    (⟨[1], leBytes 8 0x4018000000000000⟩, 0)]

/-- A tensor of another shape and another element type: the six 32-bit
integers `7 .. 12`, of shape `[3, 2]`. -/
def exampleOther : Tensor :=
  ⟨[3, 2], leBytes 4 7 ++ leBytes 4 8 ++ leBytes 4 9 ++ leBytes 4 10 ++ leBytes 4 11
    ++ leBytes 4 12⟩

/-- Three writes to one stream of 64-bit floats: two payloads of shape `[2]`,
then `exampleOther`, passed with the scalar type numbered 2. -/
def exampleWrites : List (Tensor × String × ApproxType) :=
  [(exampleInput, "input", 0), (exampleInput2, "input", 0), (exampleOther, "input", 2)]

/-- Two writes to one stream, both of shape `[2]`: the 32-bit integers `[1, 2]`
passed with the scalar type numbered 2, the 32-bit integer, and then the long
integers `[7, 8]` passed with the scalar type numbered 3, the long integer. -/
def mismatchWrites : List (Tensor × String × ApproxType) :=
  [(⟨[2], leBytes 4 1 ++ leBytes 4 2⟩, "input", 2),
    (⟨[2], leBytes 8 7 ++ leBytes 8 8⟩, "input", 3)]

/-- A registry of two regions. -/
def exampleDB : HDF5DB :=
  ⟨1, [exampleRegion, HDF5TensorRegionView.fresh 1 3 8192 "loopB"]⟩

/-! ## Auxiliary facts about the embedding -/

theorem range_map_size (t : Tensor) : (List.range t.dim).map t.size = t.sizes := by
  apply List.ext_getElem
  · simp [Tensor.dim]
  · intro i h1 h2
    simp [Tensor.dim] at h1
    simp [Tensor.size, List.getD, h1]

theorem fitsMax_self (ds : List Nat) : fitsMax ds ds = true := by
  induction ds with
  | nil => rfl
  | cons d ds ih => simp [fitsMax, ih]

theorem initializeTensorData_uninit (T : Build) (td : TensorData) (name : String)
    (tensor : Tensor) (DType : ApproxType) (hdftype : HdfType)
    (hun : td.initialized = false)
    (hty : getHDF5TypeFromApproxType T DType = .ok hdftype) :
    initializeTensorData T td name tensor DType
      = .done (td.initializedFrom name tensor DType hdftype) := by
  simp [initializeTensorData, hun, hty, range_map_size, H5Screate_simple, fitsMax, fitsMax_self,
    H5S_UNLIMITED, H5Dcreate, H5Pset_chunk, createTypeAttribute, H5Acreate_write,
    List.lookup, TensorData.initializedFrom]

theorem initializeTensorData_uninit_error (T : Build) (td : TensorData) (name : String)
    (tensor : Tensor) (DType : ApproxType) (e : Err)
    (hun : td.initialized = false)
    (hty : getHDF5TypeFromApproxType T DType = .error e) :
    initializeTensorData T td name tensor DType = .abort e td := by
  simp [initializeTensorData, hun, hty]

theorem initializeTensorData_initialized (T : Build) (td : TensorData) (name : String)
    (tensor : Tensor) (DType : ApproxType) (hinit : td.initialized = true) :
    initializeTensorData T td name tensor DType = .done td := by
  simp [initializeTensorData, hinit]

theorem writeTensorData_initialized_eq (T : Build) (td : TensorData) (tensor : Tensor)
    (name name' : String) (DType DType' : ApproxType) (hinit : td.initialized = true) :
    writeTensorData T td tensor name DType = writeTensorData T td tensor name' DType' := by
  simp [writeTensorData, TensorData.isInitialized, hinit]

theorem writeTensorData_uninit (T : Build) (td : TensorData) (tensor : Tensor)
    (name : String) (DType : ApproxType) (hdftype : HdfType)
    (hun : td.initialized = false)
    (hty : getHDF5TypeFromApproxType T DType = .ok hdftype) :
    writeTensorData T td tensor name DType
      = writeTensorData T (td.initializedFrom name tensor DType hdftype) tensor name DType := by
  conv_lhs => unfold writeTensorData
  simp only [TensorData.isInitialized, hun, Bool.not_false, if_true,
    initializeTensorData_uninit T td name tensor DType hdftype hun hty]
  conv_rhs => unfold writeTensorData
  simp only [TensorData.isInitialized, TensorData.initializedFrom, Bool.not_true,
    Bool.false_eq_true, if_false]

theorem writeTensorData_uninit_error (T : Build) (td : TensorData) (tensor : Tensor)
    (name : String) (DType : ApproxType) (e : Err)
    (hun : td.initialized = false)
    (hty : getHDF5TypeFromApproxType T DType = .error e) :
    writeTensorData T td tensor name DType = .abort e td := by
  unfold writeTensorData
  simp only [TensorData.isInitialized, hun, Bool.not_false, if_true,
    initializeTensorData_uninit_error T td name tensor DType e hun hty]

theorem writeTensorData_done_inv (T : Build) (td : TensorData) (tensor : Tensor)
    (name : String) (DType : ApproxType) (td' : TensorData)
    (hinit : td.initialized = true)
    (hw : writeTensorData T td tensor name DType = .done td') :
    ∃ ds old rest ds1 memType ds2,
      td.dset = some ds ∧ td.shape = old :: rest ∧
      H5Dset_extent ds ((old + 1) % HSIZE_MOD :: rest) = some ds1 ∧
      td.hdf_native_type = some memType ∧
      H5Dwrite ds1 memType (1 :: rest)
        (((old + 1) % HSIZE_MOD + HSIZE_MOD - 1) % HSIZE_MOD :: List.replicate rest.length 0)
        (1 :: rest) tensor.data = .ok ds2 ∧
      td' = { td with shape := (old + 1) % HSIZE_MOD :: rest, dset := some ds2 } := by
  unfold writeTensorData at hw
  simp only [TensorData.isInitialized, hinit, Bool.not_true, Bool.false_eq_true, if_false] at hw
  split at hw
  · cases hw
  · rename_i ds hds
    split at hw
    · cases hw
    · rename_i old rest hshape
      split at hw
      · cases hw
      · rename_i ds1 hds1
        split at hw
        · cases hw
        · rename_i memType hmem
          split at hw
          · cases hw
          · rename_i ds2 hds2
            refine ⟨ds, old, rest, ds1, memType, ds2, hds, hshape, hds1, hmem, hds2, ?_⟩
            cases hw
            simp [hinit]

theorem slabInExtent_head {d s c : Nat} {dims start count : List Nat}
    (h : slabInExtent (d :: dims) (s :: start) (c :: count) = true) :
    s + c ≤ d ∧ slabInExtent dims start count = true := by
  simpa [slabInExtent] using h

theorem H5Dset_extent_some {ds ds1 : Dataset} {size : List Nat}
    (h : H5Dset_extent ds size = some ds1) :
    fitsMax size ds.maxDims = true ∧
    ds1 = { ds with
      dims := size
      cells := fun idx =>
        if inExtent ds.dims idx then ds.cells idx
        else List.replicate (H5Tget_size ds.dtype) 0 } := by
  unfold H5Dset_extent at h
  split at h
  · rename_i hf
    exact ⟨hf, by cases h; rfl⟩
  · cases h

theorem H5Dwrite_ok {ds ds2 : Dataset} {memType : HdfType} {memCount start count : List Nat}
    {buf : List Byte} (h : H5Dwrite ds memType memCount start count buf = .ok ds2) :
    slabInExtent ds.dims start count = true ∧ numElements memCount = numElements count ∧
    numElements memCount * H5Tget_size memType ≤ buf.length ∧
    ds2 = { ds with
      cells := fun idx =>
        if inSlab start count idx then
          (buf.drop (slabOffset start count idx * H5Tget_size memType)).take
            (H5Tget_size memType)
        else ds.cells idx } := by
  unfold H5Dwrite at h
  split at h
  · rename_i hv
    split at h
    · cases h
    · rename_i hlen
      simp only [Bool.and_eq_true, decide_eq_true_eq] at hv
      exact ⟨hv.1, hv.2, by omega, by cases h; rfl⟩
  · cases h

/-- A successful write to an initialized stream whose row count is a value of
`hsize_t`: what it keeps and what it changes. -/
theorem writeTensorData_step (T : Build) (td : TensorData)
    (tensor : Tensor) (name : String) (DType : ApproxType) (td' : TensorData)
    (hinit : td.initialized = true)
    (hsize : td.rowCount < HSIZE_MOD)
    (hw : writeTensorData T td tensor name DType = .done td') :
    td'.approx_type = td.approx_type ∧
    td'.hdf_native_type = td.hdf_native_type ∧
    td'.shape.tail = td.shape.tail ∧
    td'.rowCount = td.rowCount + 1 ∧
    td'.shape.head? = some (td.rowCount + 1) ∧
    td'.initialized = true ∧
    td'.rowCount < HSIZE_MOD ∧
    (∃ ds ds', td.dset = some ds ∧ td'.dset = some ds' ∧ ds'.dtype = ds.dtype ∧
      ds'.attrs = ds.attrs ∧ ds'.dims = td'.shape) := by
  obtain ⟨ds, old, rest, ds1, memType, ds2, hds, hshape, h1, _, h2, rfl⟩ :=
    writeTensorData_done_inv T td tensor name DType td' hinit hw
  obtain ⟨_, rfl⟩ := H5Dset_extent_some h1
  obtain ⟨hslab, _, _, rfl⟩ := H5Dwrite_ok h2
  have hs := (slabInExtent_head hslab).1
  simp only [TensorData.rowCount, hinit, hshape, if_true, List.headD_cons] at hsize ⊢
  have hnew : (old + 1) % HSIZE_MOD = old + 1 := by
    unfold HSIZE_MOD at *
    omega
  have hlt : old + 1 < HSIZE_MOD := by
    unfold HSIZE_MOD at *
    omega
  simp [hnew, hds, hlt]

theorem writeInputTensor_eq (T : Build) (r : HDF5TensorRegionView) (tensor : Tensor)
    (AT : ApproxType) (hpass : T.NDEBUG = true ∨ r.expect_input = true) :
    writeInputTensor T r tensor AT =
      match writeTensorData T r.IptTensorData tensor "input" AT with
      | .abort e td => .abort e { r with IptTensorData := td }
      | .done td => .done { r with IptTensorData := td, expect_input := false } := by
  have hguard : (!T.NDEBUG && !r.expect_input) = false := by
    rcases hpass with h | h <;> simp [h]
  unfold writeInputTensor
  simp only [hguard, Bool.false_eq_true, if_false]
  cases hi : r.IptTensorData.initialized
  · simp only [TensorData.isInitialized, hi, Bool.not_false, if_true]
    cases hty : getHDF5TypeFromApproxType T AT with
    | error e =>
      rw [initializeTensorData_uninit_error T _ "input" tensor AT e hi hty,
        writeTensorData_uninit_error T _ tensor "input" AT e hi hty]
    | ok hdftype =>
      rw [initializeTensorData_uninit T _ "input" tensor AT hdftype hi hty,
        writeTensorData_uninit T _ tensor "input" AT hdftype hi hty]
      simp only
      rw [writeTensorData_initialized_eq T _ tensor _ "input" AT AT rfl]
  · simp only [TensorData.isInitialized, hi, Bool.not_true, Bool.false_eq_true, if_false]
    rw [writeTensorData_initialized_eq T _ tensor r.IptTensorData.dset_name "input" AT AT hi]

theorem writeOutputTensor_eq (T : Build) (r : HDF5TensorRegionView) (tensor : Tensor)
    (AT : ApproxType) (hpass : T.NDEBUG = true ∨ r.expect_input = false) :
    writeOutputTensor T r tensor AT =
      match writeTensorData T r.OptTensorData tensor "output" AT with
      | .abort e td => .abort e { r with OptTensorData := td }
      | .done td => .done { r with OptTensorData := td, expect_input := true } := by
  have hguard : (!T.NDEBUG && r.expect_input) = false := by
    rcases hpass with h | h <;> simp [h]
  unfold writeOutputTensor
  simp only [hguard, Bool.false_eq_true, if_false]
  cases hi : r.OptTensorData.initialized
  · simp only [TensorData.isInitialized, hi, Bool.not_false, if_true]
    cases hty : getHDF5TypeFromApproxType T AT with
    | error e =>
      rw [initializeTensorData_uninit_error T _ "output" tensor AT e hi hty,
        writeTensorData_uninit_error T _ tensor "output" AT e hi hty]
    | ok hdftype =>
      rw [initializeTensorData_uninit T _ "output" tensor AT hdftype hi hty,
        writeTensorData_uninit T _ tensor "output" AT hdftype hi hty]
      simp only
      rw [writeTensorData_initialized_eq T _ tensor _ "output" AT AT rfl]
  · simp only [TensorData.isInitialized, hi, Bool.not_true, Bool.false_eq_true, if_false]
    rw [writeTensorData_initialized_eq T _ tensor r.OptTensorData.dset_name "output" AT AT hi]

theorem StreamOK_fresh : StreamOK TensorData.fresh := by
  refine ⟨fun _ => rfl, fun h => ?_, ?_⟩
  · cases h
  · simp [TensorData.rowCount, TensorData.fresh, HSIZE_MOD]

/-- A successful write adds one row, whether it initialized the stream or not. -/
theorem writeTensorData_rowCount (T : Build) (td : TensorData)
    (tensor : Tensor) (name : String) (DType : ApproxType) (td' : TensorData)
    (hok : StreamOK td)
    (hw : writeTensorData T td tensor name DType = .done td') :
    td'.rowCount = td.rowCount + 1 ∧ StreamOK td' ∧ td'.initialized = true := by
  have key : ∀ td0 : TensorData, td0.initialized = true → td0.rowCount < HSIZE_MOD →
      writeTensorData T td0 tensor name DType = .done td' →
      td'.rowCount = td0.rowCount + 1 ∧ StreamOK td' ∧ td'.initialized = true := by
    intro td0 hi hs hw0
    have h := writeTensorData_step T td0 tensor name DType td' hi hs hw0
    obtain ⟨_, _, _, hrc, hhead, hinit, hlt, ds, ds', _, hds', _, _, hdims⟩ := h
    refine ⟨hrc, ⟨?_, ?_, hlt⟩, hinit⟩
    · intro hc
      rw [hinit] at hc
      cases hc
    · intro _
      refine ⟨?_, ds', hds', hdims⟩
      intro hnil
      rw [hnil] at hhead
      cases hhead
  cases hi : td.initialized
  · cases hty : getHDF5TypeFromApproxType T DType with
    | error e =>
      rw [writeTensorData_uninit_error T td tensor name DType e hi hty] at hw
      cases hw
    | ok hdftype =>
      rw [writeTensorData_uninit T td tensor name DType hdftype hi hty] at hw
      have hshape := hok.1 hi
      have hrc : (td.initializedFrom name tensor DType hdftype).rowCount = 0 := by
        simp [TensorData.rowCount, TensorData.initializedFrom, hshape]
      have h := key _ rfl (by rw [hrc]; simp [HSIZE_MOD]) hw
      refine ⟨?_, h.2⟩
      rw [h.1, hrc]
      simp [TensorData.rowCount, hi]
  · exact key td hi hok.2.2 hw

theorem RegionOK_fresh (r : HDF5TensorRegionView) (h : r.isFresh) : RegionOK r 0 := by
  obtain ⟨he, hi, ho⟩ := h
  refine ⟨?_, ?_, ?_, ?_, ?_⟩
  · rw [hi]; exact StreamOK_fresh
  · rw [ho]; exact StreamOK_fresh
  · rw [hi]; rfl
  · rw [ho]; rfl
  · rw [he]; rfl

theorem writeTensor_RegionOK (T : Build) (r r' : HDF5TensorRegionView) (tensor : Tensor)
    (AT : ApproxType) (k : Nat) (hok : RegionOK r k)
    (hw : writeTensor T r tensor AT = .done r') : RegionOK r' (k + 1) := by
  obtain ⟨hI, hO, hIc, hOc, hexp⟩ := hok
  unfold writeTensor at hw
  cases he : r.expect_input
  · rw [he] at hexp
    have hk : k % 2 = 1 := by
      have := (decide_eq_false_iff_not.mp hexp.symm)
      omega
    simp only [he, Bool.false_eq_true, if_false] at hw
    rw [writeOutputTensor_eq T r tensor AT (Or.inr he)] at hw
    split at hw
    · cases hw
    · rename_i td htd
      cases hw
      obtain ⟨h1, h2, _⟩ := writeTensorData_rowCount T _ tensor "output" AT td hO htd
      refine ⟨hI, h2, ?_, ?_, ?_⟩
      · simp only [hIc]; omega
      · simp only [h1, hOc]; omega
      · simp only [true_eq_decide_iff]; omega
  · rw [he] at hexp
    have hk : k % 2 = 0 := by
      have := (decide_eq_true_iff.mp hexp.symm)
      omega
    simp only [he, if_true] at hw
    rw [writeInputTensor_eq T r tensor AT (Or.inr he)] at hw
    split at hw
    · cases hw
    · rename_i td htd
      cases hw
      obtain ⟨h1, h2, _⟩ := writeTensorData_rowCount T _ tensor "input" AT td hI htd
      refine ⟨h2, hO, ?_, ?_, ?_⟩
      · simp only [h1, hIc]; omega
      · simp only [hOc]; omega
      · simp only [false_eq_decide_iff]; omega

theorem writeTensorSeq_RegionOK (T : Build) (calls : List (Tensor × ApproxType)) :
    ∀ (r r' : HDF5TensorRegionView) (k : Nat), RegionOK r k →
      writeTensorSeq T r calls = .done r' → RegionOK r' (k + calls.length) := by
  induction calls with
  | nil =>
    intro r r' k hok hw
    simp only [writeTensorSeq] at hw
    cases hw
    exact hok
  | cons c calls ih =>
    intro r r' k hok hw
    obtain ⟨tensor, AT⟩ := c
    simp only [writeTensorSeq] at hw
    split at hw
    · cases hw
    · rename_i s hs
      have h1 := writeTensor_RegionOK T r s tensor AT k hok hs
      have h2 := ih s r' (k + 1) h1 hw
      have : k + (calls.length + 1) = k + 1 + calls.length := by omega
      simp only [List.length_cons, this]
      exact h2

theorem writePairSeq_RegionOK (T : Build)
    (pairs : List ((Tensor × ApproxType) × (Tensor × ApproxType))) :
    ∀ (r r' : HDF5TensorRegionView) (m : Nat), RegionOK r (2 * m) →
      writePairSeq T r pairs = .done r' → RegionOK r' (2 * (m + pairs.length)) := by
  induction pairs with
  | nil =>
    intro r r' m hok hw
    simp only [writePairSeq] at hw
    cases hw
    exact hok
  | cons c pairs ih =>
    intro r r' m hok hw
    obtain ⟨⟨tin, ATin⟩, ⟨tout, ATout⟩⟩ := c
    simp only [writePairSeq] at hw
    split at hw
    · cases hw
    · rename_i s hs
      split at hw
      · cases hw
      · rename_i s2 hs2
        have he : r.expect_input = true := by
          rw [hok.2.2.2.2]; simp
        have hw1 : writeTensor T r tin ATin = .done s := by
          simp only [writeTensor, he, if_true]; exact hs
        have h1 := writeTensor_RegionOK T r s tin ATin (2 * m) hok hw1
        have he2 : s.expect_input = false := by
          rw [h1.2.2.2.2]; simp; omega
        have hw2 : writeTensor T s tout ATout = .done s2 := by
          simp only [writeTensor, he2, Bool.false_eq_true, if_false]; exact hs2
        have h2 := writeTensor_RegionOK T s s2 tout ATout (2 * m + 1) h1 hw2
        have h3 := ih s2 r' (m + 1) (by
          have : 2 * (m + 1) = 2 * m + 1 + 1 := by omega
          rw [this]; exact h2) hw
        have : m + (pairs.length + 1) = m + 1 + pairs.length := by omega
        simp only [List.length_cons, this]
        exact h3

theorem RegionOK_even (r : HDF5TensorRegionView) (N : Nat) (h : RegionOK r (2 * N)) :
    r.IptTensorData.rowCount = N ∧ r.OptTensorData.rowCount = N ∧ r.expect_input = true ∧
    (r.IptTensorData.initialized = true →
      r.IptTensorData.shape.head? = some N ∧
      ∃ ds, r.IptTensorData.dset = some ds ∧ ds.dims.head? = some N) ∧
    (r.OptTensorData.initialized = true →
      r.OptTensorData.shape.head? = some N ∧
      ∃ ds, r.OptTensorData.dset = some ds ∧ ds.dims.head? = some N) := by
  obtain ⟨hI, hO, hIc, hOc, hexp⟩ := h
  have hIN : r.IptTensorData.rowCount = N := by rw [hIc]; omega
  have hON : r.OptTensorData.rowCount = N := by rw [hOc]; omega
  have aux : ∀ td : TensorData, StreamOK td → td.rowCount = N → td.initialized = true →
      td.shape.head? = some N ∧ ∃ ds, td.dset = some ds ∧ ds.dims.head? = some N := by
    intro td hok hrc hi
    obtain ⟨hne, ds, hds, hdims⟩ := hok.2.1 hi
    have hh : td.shape.head? = some N := by
      cases hsh : td.shape with
      | nil => exact absurd hsh hne
      | cons a l =>
        simp [TensorData.rowCount, hi, hsh] at hrc
        simp [hrc]
    exact ⟨hh, ds, hds, by rw [hdims]; exact hh⟩
  refine ⟨hIN, hON, ?_, aux _ hI hIN, aux _ hO hON⟩
  rw [hexp]; simp

/-- Claim C1: on a freshly instantiated region, after `N` alternating
input/output writes that all return (`2 * N` calls of `writeTensor`, or `N`
pairs `writeInputTensor` then `writeOutputTensor`), the input stream and the
output stream hold exactly `N` rows each (`shape[0]` and the first extent of
the dataset of each initialized stream are `N`) and the region expects an
input again. -/
theorem alternating_writes_row_counts (T : Build) (r : HDF5TensorRegionView) (N : Nat)
    (hfresh : r.isFresh) :
    (∀ (calls : List (Tensor × ApproxType)) (r' : HDF5TensorRegionView),
      calls.length = 2 * N → writeTensorSeq T r calls = .done r' →
      r'.IptTensorData.rowCount = N ∧ r'.OptTensorData.rowCount = N ∧
      r'.expect_input = true ∧
      (r'.IptTensorData.initialized = true →
        r'.IptTensorData.shape.head? = some N ∧
        ∃ ds, r'.IptTensorData.dset = some ds ∧ ds.dims.head? = some N) ∧
      (r'.OptTensorData.initialized = true →
        r'.OptTensorData.shape.head? = some N ∧
        ∃ ds, r'.OptTensorData.dset = some ds ∧ ds.dims.head? = some N)) ∧
    (∀ (pairs : List ((Tensor × ApproxType) × (Tensor × ApproxType)))
      (r' : HDF5TensorRegionView),
      pairs.length = N → writePairSeq T r pairs = .done r' →
      r'.IptTensorData.rowCount = N ∧ r'.OptTensorData.rowCount = N ∧
      r'.expect_input = true ∧
      (r'.IptTensorData.initialized = true →
        r'.IptTensorData.shape.head? = some N ∧
        ∃ ds, r'.IptTensorData.dset = some ds ∧ ds.dims.head? = some N) ∧
      (r'.OptTensorData.initialized = true →
        r'.OptTensorData.shape.head? = some N ∧
        ∃ ds, r'.OptTensorData.dset = some ds ∧ ds.dims.head? = some N)) := by
  have h0 := RegionOK_fresh r hfresh
  constructor
  · intro calls r' hlen hw
    have h := writeTensorSeq_RegionOK T calls r r' 0 h0 hw
    rw [hlen, Nat.zero_add] at h
    exact RegionOK_even r' N h
  · intro pairs r' hlen hw
    have h := writePairSeq_RegionOK T pairs r r' 0 h0 hw
    rw [hlen, Nat.zero_add] at h
    exact RegionOK_even r' N h

theorem getHDF5DataType_error (NDEBUG : Bool) (c : CType) (e : Err)
    (h : getHDF5DataType NDEBUG c = .error e) :
    e = .UnsupportedTypeError ∨ e = .MissingReturn := by
  cases c <;> cases NDEBUG <;> simp [getHDF5DataType] at h
  · exact Or.inl h.symm
  · exact Or.inr h.symm

theorem getHDF5TypeFromApproxType_error (T : Build) (ty : ApproxType) (e : Err)
    (h : getHDF5TypeFromApproxType T ty = .error e) :
    e = .UnsupportedTypeError ∨ e = .MissingReturn := by
  unfold getHDF5TypeFromApproxType at h
  split at h
  · exact getHDF5DataType_error _ _ e h
  · split at h <;> cases h <;> exact Or.inr rfl

theorem H5Dwrite_error {ds : Dataset} {memType : HdfType} {memCount start count : List Nat}
    {buf : List Byte} {e : Err}
    (h : H5Dwrite ds memType memCount start count buf = .error e) :
    e = .StorageWriteError ∨ e = .OutOfBounds := by
  unfold H5Dwrite at h
  split at h
  · split at h
    · cases h; exact Or.inr rfl
    · cases h
  · cases h; exact Or.inl rfl

/-- The ways in which `writeTensorData` stops the process: never through one of
the checks of its callers. -/
theorem writeTensorData_abort_kind (T : Build) (td s : TensorData) (tensor : Tensor)
    (name : String) (DType : ApproxType) (e : Err)
    (hw : writeTensorData T td tensor name DType = .abort e s) :
    e = .UnsupportedTypeError ∨ e = .MissingReturn ∨ e = .StorageWriteError ∨
      e = .OutOfBounds := by
  have key : ∀ td0 : TensorData, td0.initialized = true →
      writeTensorData T td0 tensor name DType = .abort e s →
      e = .StorageWriteError ∨ e = .OutOfBounds := by
    intro td0 hi h
    unfold writeTensorData at h
    simp only [TensorData.isInitialized, hi, Bool.not_true, Bool.false_eq_true, if_false] at h
    split at h
    · cases h; exact Or.inl rfl
    · split at h
      · cases h; exact Or.inr rfl
      · split at h
        · cases h; exact Or.inl rfl
        · split at h
          · cases h; exact Or.inl rfl
          · split at h
            · rename_i e' he'
              cases h
              exact H5Dwrite_error he'
            · cases h
  cases hi : td.initialized
  · cases hty : getHDF5TypeFromApproxType T DType with
    | error e' =>
      rw [writeTensorData_uninit_error T td tensor name DType e' hi hty] at hw
      cases hw
      rcases getHDF5TypeFromApproxType_error T DType e hty with h | h
      · exact Or.inl h
      · exact Or.inr (Or.inl h)
    | ok hdftype =>
      rw [writeTensorData_uninit T td tensor name DType hdftype hi hty] at hw
      rcases key _ rfl hw with h | h
      · exact Or.inr (Or.inr (Or.inl h))
      · exact Or.inr (Or.inr (Or.inr h))
  · rcases key td hi hw with h | h
    · exact Or.inr (Or.inr (Or.inl h))
    · exact Or.inr (Or.inr (Or.inr h))

theorem writeTensor_abort_kind (T : Build) (r s : HDF5TensorRegionView) (tensor : Tensor)
    (AT : ApproxType) (e : Err)
    (hw : writeTensor T r tensor AT = .abort e s) :
    e = .UnsupportedTypeError ∨ e = .MissingReturn ∨ e = .StorageWriteError ∨
      e = .OutOfBounds := by
  unfold writeTensor at hw
  cases he : r.expect_input
  · simp only [he, Bool.false_eq_true, if_false] at hw
    rw [writeOutputTensor_eq T r tensor AT (Or.inr he)] at hw
    split at hw
    · rename_i e' td htd
      cases hw
      exact writeTensorData_abort_kind T _ td tensor "output" AT e htd
    · cases hw
  · simp only [he, if_true] at hw
    rw [writeInputTensor_eq T r tensor AT (Or.inr he)] at hw
    split at hw
    · rename_i e' td htd
      cases hw
      exact writeTensorData_abort_kind T _ td tensor "input" AT e htd
    · cases hw

/-- Claim C4, which the code keeps only in a build without `NDEBUG`: there, on
a fresh region, `writeOutputTensor` stops at its `assert` with
`AlternationViolationError` and the region is left as it was.  In a build
with `NDEBUG` the `assert` is no code: the call never stops with
`AlternationViolationError`, it is the write to the output stream, and when it
returns the output stream is initialized and holds one row while the region
still expects an input. -/
theorem writeOutputTensor_on_fresh_region (T : Build) (r : HDF5TensorRegionView)
    (tensor : Tensor) (AT : ApproxType) (hfresh : r.isFresh) :
    (T.NDEBUG = false →
      writeOutputTensor T r tensor AT = .abort .AlternationViolationError r ∧
      (writeOutputTensor T r tensor AT).state.IptTensorData.initialized = false ∧
      (writeOutputTensor T r tensor AT).state.OptTensorData.initialized = false ∧
      (writeOutputTensor T r tensor AT).state.IptTensorData.rowCount = 0 ∧
      (writeOutputTensor T r tensor AT).state.OptTensorData.rowCount = 0 ∧
      (writeOutputTensor T r tensor AT).state.expect_input = true) ∧
    (T.NDEBUG = true →
      (∀ s, writeOutputTensor T r tensor AT ≠ .abort .AlternationViolationError s) ∧
      (writeOutputTensor T r tensor AT =
        match writeTensorData T TensorData.fresh tensor "output" AT with
        | .abort e td => .abort e { r with OptTensorData := td }
        | .done td => .done { r with OptTensorData := td, expect_input := true }) ∧
      ∀ r', writeOutputTensor T r tensor AT = .done r' →
        r'.OptTensorData.initialized = true ∧ r'.OptTensorData.rowCount = 1 ∧
        r'.IptTensorData = r.IptTensorData ∧ r'.expect_input = true) := by
  obtain ⟨he, hi, ho⟩ := hfresh
  constructor
  · intro hb
    have h : writeOutputTensor T r tensor AT = .abort .AlternationViolationError r := by
      simp [writeOutputTensor, he, hb]
    rw [h]
    simp [Outcome.state, he, hi, ho, TensorData.fresh, TensorData.rowCount]
  · intro hb
    have heq := writeOutputTensor_eq T r tensor AT (Or.inl hb)
    rw [ho] at heq
    refine ⟨?_, heq, ?_⟩
    · intro s hs
      rw [heq] at hs
      split at hs
      · rename_i e td htd
        have hk := writeTensorData_abort_kind T _ td tensor "output" AT e htd
        cases hs
        simp at hk
      · cases hs
    · intro r' hr'
      rw [heq] at hr'
      split at hr'
      · cases hr'
      · rename_i td htd
        cases hr'
        obtain ⟨h1, _, h3⟩ :=
          writeTensorData_rowCount T _ tensor "output" AT td StreamOK_fresh htd
        refine ⟨h3, ?_, rfl, rfl⟩
        rw [h1]
        rfl

/-- Claim C3, as amended: after a first successful `writeTensor` on a fresh
region the input stream holds one row and the output stream none.  A second
`writeTensor` is a call of `writeOutputTensor`: it never stops with
`AlternationViolationError`, it leaves the input stream as it is, and when it
returns the input stream holds the one row of the first call, the output
stream holds one row, and the region expects an input. -/
theorem writeTensor_twice_on_fresh_region (T : Build) (r r1 : HDF5TensorRegionView)
    (t1 t2 : Tensor) (AT1 AT2 : ApproxType) (hfresh : r.isFresh)
    (h1 : writeTensor T r t1 AT1 = .done r1) :
    r1.IptTensorData.rowCount = 1 ∧ r1.OptTensorData.rowCount = 0 ∧
    writeTensor T r1 t2 AT2 = writeOutputTensor T r1 t2 AT2 ∧
    (∀ s, writeTensor T r1 t2 AT2 ≠ .abort .AlternationViolationError s) ∧
    (writeTensor T r1 t2 AT2).state.IptTensorData = r1.IptTensorData ∧
    (∀ r2, writeTensor T r1 t2 AT2 = .done r2 →
      r2.IptTensorData = r1.IptTensorData ∧
      r2.IptTensorData.rowCount = 1 ∧ r2.OptTensorData.rowCount = 1 ∧
      r2.expect_input = true) := by
  have hok1 := writeTensor_RegionOK T r r1 t1 AT1 0 (RegionOK_fresh r hfresh) h1
  have he : r1.expect_input = false := by
    rw [hok1.2.2.2.2]; simp
  have hdisp : writeTensor T r1 t2 AT2 = writeOutputTensor T r1 t2 AT2 := by
    simp [writeTensor, he]
  have hkeep : (writeTensor T r1 t2 AT2).state.IptTensorData = r1.IptTensorData := by
    rw [hdisp, writeOutputTensor_eq T r1 t2 AT2 (Or.inr he)]
    split <;> rfl
  refine ⟨by rw [hok1.2.2.1], by rw [hok1.2.2.2.1], hdisp, ?_, hkeep, ?_⟩
  · intro s hs
    have := writeTensor_abort_kind T r1 s t2 AT2 _ hs
    simp at this
  · intro r2 h2
    have hok2 := writeTensor_RegionOK T r1 r2 t2 AT2 1 hok1 h2
    have hk : r2.IptTensorData = r1.IptTensorData := by
      rw [h2] at hkeep
      exact hkeep
    exact ⟨hk, by rw [hok2.2.2.1], by rw [hok2.2.2.2.1], by rw [hok2.2.2.2.2]; simp⟩

/-- No write to an initialized stream touches the attributes of its dataset,
whether the write returns or not. -/
theorem writeTensorData_state_attrs (T : Build) (td : TensorData) (tensor : Tensor)
    (name : String) (DType : ApproxType) (ds : Dataset)
    (hinit : td.initialized = true) (hds : td.dset = some ds) :
    (writeTensorData T td tensor name DType).state.initialized = true ∧
    ∃ ds', (writeTensorData T td tensor name DType).state.dset = some ds' ∧
      ds'.attrs = ds.attrs := by
  unfold writeTensorData
  simp only [TensorData.isInitialized, hinit, Bool.not_true, Bool.false_eq_true, if_false, hds]
  split
  · exact ⟨hinit, ds, hds, rfl⟩
  · split
    · exact ⟨rfl, ds, rfl, rfl⟩
    · rename_i ds1 h1
      obtain ⟨_, rfl⟩ := H5Dset_extent_some h1
      split
      · exact ⟨rfl, _, rfl, rfl⟩
      · split
        · exact ⟨rfl, _, rfl, rfl⟩
        · rename_i ds2 h2
          obtain ⟨_, _, _, rfl⟩ := H5Dwrite_ok h2
          exact ⟨rfl, _, rfl, rfl⟩

theorem writeTensorDataSeq_state_attrs (T : Build)
    (calls : List (Tensor × String × ApproxType)) :
    ∀ (td : TensorData) (ds : Dataset), td.initialized = true → td.dset = some ds →
      ∃ ds', (writeTensorDataSeq T td calls).state.dset = some ds' ∧ ds'.attrs = ds.attrs := by
  induction calls with
  | nil =>
    intro td ds _ hds
    exact ⟨ds, hds, rfl⟩
  | cons c calls ih =>
    intro td ds hinit hds
    obtain ⟨tensor, name, DType⟩ := c
    obtain ⟨hi', ds', hds', hattrs⟩ :=
      writeTensorData_state_attrs T td tensor name DType ds hinit hds
    simp only [writeTensorDataSeq]
    cases hw : writeTensorData T td tensor name DType with
    | abort e s =>
      rw [hw] at hds'
      exact ⟨ds', hds', hattrs⟩
    | done s =>
      rw [hw] at hds' hi'
      obtain ⟨ds'', h1, h2⟩ := ih s ds' hi' hds'
      exact ⟨ds'', h1, h2.trans hattrs⟩

/-- Claim C8: once the first write to a stream has returned, the dataset has
the single attribute `type`, whose value is the scalar type passed with that
first write; it stays so through every later write, whatever scalar type a
later write is passed and whether it returns or not. -/
theorem type_attribute_is_first_scalar_type (T : Build) (td td1 : TensorData)
    (tensor : Tensor) (name : String) (DType : ApproxType)
    (later : List (Tensor × String × ApproxType))
    (hun : td.initialized = false)
    (hfirst : writeTensorData T td tensor name DType = .done td1) :
    ∃ ds, (writeTensorDataSeq T td1 later).state.dset = some ds ∧
      ds.attrs = [("type", DType)] ∧ ds.attrs.lookup "type" = some DType := by
  cases hty : getHDF5TypeFromApproxType T DType with
  | error e =>
    rw [writeTensorData_uninit_error T td tensor name DType e hun hty] at hfirst
    cases hfirst
  | ok hdftype =>
    have hfirst' := hfirst
    rw [writeTensorData_uninit T td tensor name DType hdftype hun hty] at hfirst'
    obtain ⟨hi1, ds1, hds1, hattrs1⟩ :=
      writeTensorData_state_attrs T (td.initializedFrom name tensor DType hdftype) tensor name
        DType _ rfl rfl
    rw [hfirst'] at hi1 hds1
    obtain ⟨ds, h1, h2⟩ := writeTensorDataSeq_state_attrs T later td1 ds1 hi1 hds1
    have hattrs : ds.attrs = [("type", DType)] := by
      rw [h2, hattrs1]
    refine ⟨ds, h1, hattrs, ?_⟩
    rw [hattrs]
    simp [List.lookup]

/-- Claim C7: a successful write to an initialized stream, whatever the shape
of the payload and whatever scalar type is passed, keeps `approx_type`, the
native type, the type and attributes of the dataset and the per-row shape
`shape[1..]`, and makes the row count `shape[0]` exactly one larger. -/
theorem writeTensorData_keeps_type_and_row_shape (T : Build) (td : TensorData)
    (tensor : Tensor) (name : String) (DType : ApproxType) (td' : TensorData)
    (hinit : td.initialized = true)
    (hsize : td.rowCount < HSIZE_MOD)
    (hw : writeTensorData T td tensor name DType = .done td') :
    td'.approx_type = td.approx_type ∧
    td'.hdf_native_type = td.hdf_native_type ∧
    td'.shape.tail = td.shape.tail ∧
    td'.rowCount = td.rowCount + 1 ∧
    td'.shape.head? = some (td.rowCount + 1) ∧
    td'.initialized = true ∧
    (∃ ds ds', td.dset = some ds ∧ td'.dset = some ds' ∧ ds'.dtype = ds.dtype ∧
      ds'.attrs = ds.attrs ∧ ds'.dims = td'.shape) := by
  obtain ⟨h1, h2, h3, h4, h5, h6, _, h8⟩ :=
    writeTensorData_step T td tensor name DType td' hinit hsize hw
  exact ⟨h1, h2, h3, h4, h5, h6, h8⟩

/-- The type mapper returns an identifier exactly for the enumerators whose C
type is one of the six that `getHDF5DataType` tests for, and then the
identifier of that C type. -/
theorem getHDF5TypeFromApproxType_ok_iff (T : Build) (ty : ApproxType)
    (hdftype : HdfType) :
    getHDF5TypeFromApproxType T ty = .ok hdftype ↔
      ∃ c, T.defs.lookup ty = some c ∧
        (c, hdftype) ∈ [(CType.double, HdfType.H5T_NATIVE_DOUBLE),
          (CType.float, HdfType.H5T_NATIVE_FLOAT), (CType.int, HdfType.H5T_NATIVE_INT),
          (CType.long, HdfType.H5T_NATIVE_LONG), (CType.short, HdfType.H5T_NATIVE_SHORT),
          (CType.unsignedChar, HdfType.H5T_NATIVE_UCHAR)] := by
  unfold getHDF5TypeFromApproxType
  cases hl : T.defs.lookup ty with
  | none =>
    simp only [false_iff]
    constructor
    · split <;> intro h <;> cases h
    · rintro ⟨c, hc, _⟩
      cases hc
  | some c =>
    simp only [Option.some.injEq, exists_eq_left']
    cases c <;> cases hdftype <;> cases hb : T.NDEBUG <;> simp [getHDF5DataType, hb]

/-- An enumerator whose C type is none of the six stops the process through
the `assert` of `getHDF5DataType` in a build without `NDEBUG`; with `NDEBUG`
control reaches the end of `getHDF5DataType`. -/
theorem getHDF5TypeFromApproxType_other (T : Build) (ty : ApproxType) (spelling : String)
    (hl : T.defs.lookup ty = some (.other spelling)) :
    (T.NDEBUG = false → getHDF5TypeFromApproxType T ty = .error .UnsupportedTypeError) ∧
    (T.NDEBUG = true → getHDF5TypeFromApproxType T ty = .error .MissingReturn) := by
  constructor <;> intro hb <;> simp [getHDF5TypeFromApproxType, hl, getHDF5DataType, hb]

/-- Claim C9, at the input where the code departs from it: for `INVALID`, and
for any value that is not an enumerator of the table, `getHDF5TypeFromApproxType`
does not stop with the failure of an unsupported type.  Control reaches the
end of the function: no identifier is returned and no failure is raised. -/
theorem getHDF5TypeFromApproxType_unlisted (T : Build) (ty : ApproxType)
    (hcase : T.defs.lookup ty = none) :
    getHDF5TypeFromApproxType T ty = .error .MissingReturn ∧
    getHDF5TypeFromApproxType T ty ≠ .error .UnsupportedTypeError ∧
    ∀ hdftype, getHDF5TypeFromApproxType T ty ≠ .ok hdftype := by
  simp [getHDF5TypeFromApproxType, hcase]

/-- Claim C10: on an uninitialized stream, for a tensor of rank `r` with sizes
`s_0 .. s_(r-1)` and a scalar type the type mapper accepts,
`initializeTensorData` returns with a dataset of rank `r + 1`, extent
`[0, s_0, ..., s_(r-1)]`, maximum extent `[H5S_UNLIMITED, s_0, ..., s_(r-1)]`
and chunk shape `[1, s_0, ..., s_(r-1)]`, records `[0, s_0, ..., s_(r-1)]` as
the shape of the stream and marks the stream initialized; on an initialized
stream it returns the stream unchanged. -/
theorem initializeTensorData_creates_growable_dataset (T : Build) (td : TensorData)
    (name : String) (tensor : Tensor) (DType : ApproxType) :
    (∀ hdftype, td.initialized = false → td.shape = [] →
      getHDF5TypeFromApproxType T DType = .ok hdftype →
      ∃ td' ds, initializeTensorData T td name tensor DType = .done td' ∧
        td'.dset = some ds ∧
        ds.dims.length = tensor.dim + 1 ∧
        ds.dims = 0 :: tensor.sizes ∧
        ds.maxDims = H5S_UNLIMITED :: tensor.sizes ∧
        ds.chunkDims = 1 :: tensor.sizes ∧
        ds.dtype = hdftype ∧ ds.name = name ∧
        td'.shape = 0 :: tensor.sizes ∧
        td'.initialized = true ∧
        td'.approx_type = some DType ∧ td'.hdf_native_type = some hdftype) ∧
    (td.initialized = true → initializeTensorData T td name tensor DType = .done td) := by
  constructor
  · intro hdftype hun hshape hty
    refine ⟨_, _, initializeTensorData_uninit T td name tensor DType hdftype hun hty, rfl, ?_⟩
    simp [TensorData.initializedFrom, hshape, Tensor.dim]
  · exact initializeTensorData_initialized T td name tensor DType

theorem TensorToDB_out_of_range (T : Build) (db : HDF5DB) (Region : Nat) (tensor : Tensor)
    (AT : ApproxType) (h : Region ≥ db.regions.length) :
    TensorToDB T db Region tensor AT = .abort .InvalidHandleError db := by
  simp [TensorToDB, h]

theorem TensorToDB_in_range (T : Build) (db : HDF5DB) (Region : Nat) (tensor : Tensor)
    (AT : ApproxType) (h : Region < db.regions.length) :
    TensorToDB T db Region tensor AT =
      match writeTensor T (db.regions.get ⟨Region, h⟩) tensor AT with
      | .abort e r => .abort e { db with regions := db.regions.set Region r }
      | .done r => .done { db with regions := db.regions.set Region r } := by
  have hn : ¬ Region ≥ db.regions.length := by omega
  simp [TensorToDB, hn]

/-- Claim C5: `TensorToDB` stops with `InvalidHandleError` exactly when the
index of the handle is at least the size of the registry, and then the
registry is unchanged; when the index is in range, the call is `writeTensor`
on the region stored at that index, whose new state replaces it. -/
theorem TensorToDB_checks_handle (T : Build) (db : HDF5DB) (Region : Nat)
    (tensor : Tensor) (AT : ApproxType) :
    ((∃ s, TensorToDB T db Region tensor AT = .abort .InvalidHandleError s)
      ↔ Region ≥ db.regions.length) ∧
    (Region ≥ db.regions.length →
      TensorToDB T db Region tensor AT = .abort .InvalidHandleError db) ∧
    (∀ h : Region < db.regions.length,
      (TensorToDB T db Region tensor AT).state.regions =
        db.regions.set Region (writeTensor T (db.regions.get ⟨Region, h⟩) tensor AT).state ∧
      (TensorToDB T db Region tensor AT).state.file = db.file ∧
      ((∃ db', TensorToDB T db Region tensor AT = .done db') ↔
        ∃ r', writeTensor T (db.regions.get ⟨Region, h⟩) tensor AT = .done r')) := by
  refine ⟨⟨?_, ?_⟩, TensorToDB_out_of_range T db Region tensor AT, ?_⟩
  · rintro ⟨s, hs⟩
    by_contra hlt
    have hlt' : Region < db.regions.length := by omega
    rw [TensorToDB_in_range T db Region tensor AT hlt'] at hs
    split at hs
    · rename_i e r hr
      cases hs
      have := writeTensor_abort_kind T _ r tensor AT _ hr
      simp at this
    · cases hs
  · intro h
    exact ⟨db, TensorToDB_out_of_range T db Region tensor AT h⟩
  · intro h
    rw [TensorToDB_in_range T db Region tensor AT h]
    cases hw : writeTensor T (db.regions.get ⟨Region, h⟩) tensor AT with
    | abort e r => simp [Outcome.state]
    | done r => simp [Outcome.state]

/-- Claim C6: a call of `TensorToDB` with a valid handle `h` leaves the size of
the registry unchanged, and every region at an index `j` other than `h` is
the same after the call as before (streams, datasets and `expect_input`
included), whether the call returns or not. -/
theorem TensorToDB_changes_only_its_region (T : Build) (db : HDF5DB) (h : Nat)
    (tensor : Tensor) (AT : ApproxType)
    (hvalid : h < db.regions.length) :
    (TensorToDB T db h tensor AT).state.regions.length = db.regions.length ∧
    ∀ j, j ≠ h → j < db.regions.length →
      (TensorToDB T db h tensor AT).state.regions[j]? = db.regions[j]? ∧
      (TensorToDB T db h tensor AT).state.regions[j]? ≠ none := by
  have hst : (TensorToDB T db h tensor AT).state.regions =
      db.regions.set h (writeTensor T (db.regions.get ⟨h, hvalid⟩) tensor AT).state := by
    rw [TensorToDB_in_range T db h tensor AT hvalid]
    cases hw : writeTensor T (db.regions.get ⟨h, hvalid⟩) tensor AT with
    | abort e r => simp [Outcome.state]
    | done r => simp [Outcome.state]
  rw [hst]
  refine ⟨by simp, ?_⟩
  intro j hj hlt
  have hne : h ≠ j := fun e => hj e.symm
  rw [List.getElem?_set_ne hne]
  refine ⟨rfl, ?_⟩
  simp [List.getElem?_eq_getElem hlt]

/-! ## Hyperslabs -/

theorem range_blocks (c m : Nat) :
    (List.range c).flatMap (fun i => (List.range m).map fun k => i * m + k)
      = List.range (c * m) := by
  induction c with
  | zero => simp
  | succ c ih =>
    rw [List.range_succ, List.flatMap_append, ih, List.flatMap_singleton, Nat.succ_mul,
      List.range_add]

theorem slabPoints_offsets : ∀ (start count : List Nat), start.length = count.length →
    (slabPoints start count).map (slabOffset start count) = List.range (numElements count)
  | [], [], _ => by simp [slabPoints, slabOffset, numElements, List.range_succ]
  | [], _ :: _, h => by simp at h
  | _ :: _, [], h => by simp at h
  | s :: start, c :: count, h => by
    have ih := slabPoints_offsets start count (by simpa using h)
    simp only [slabPoints, numElements, List.map_flatMap, List.map_map]
    rw [← range_blocks c (numElements count)]
    congr 1
    funext i
    rw [← ih, List.map_map]
    apply List.map_congr_left
    intro p _
    simp [slabOffset]

theorem slabPoints_inSlab : ∀ (start count : List Nat), start.length = count.length →
    ∀ p ∈ slabPoints start count, inSlab start count p = true
  | [], [], _ => by simp [slabPoints, inSlab]
  | [], _ :: _, h => by simp at h
  | _ :: _, [], h => by simp at h
  | s :: start, c :: count, h => by
    have ih := slabPoints_inSlab start count (by simpa using h)
    intro p hp
    simp only [slabPoints, List.mem_flatMap, List.mem_range, List.mem_map] at hp
    obtain ⟨i, hi, q, hq, rfl⟩ := hp
    simp [inSlab, ih q hq, hi]

theorem slabPoints_origin_inExtent : ∀ (dims : List Nat),
    ∀ p ∈ slabPoints (List.replicate dims.length 0) dims, inExtent dims p = true
  | [] => by simp [slabPoints, inExtent]
  | d :: dims => by
    have ih := slabPoints_origin_inExtent dims
    intro p hp
    simp only [List.length_cons, List.replicate_succ, slabPoints, List.mem_flatMap,
      List.mem_range, List.mem_map] at hp
    obtain ⟨i, hi, q, hq, rfl⟩ := hp
    simp [inExtent, ih q hq, hi]

theorem slabInExtent_origin : ∀ (dims : List Nat),
    slabInExtent dims (List.replicate dims.length 0) dims = true
  | [] => rfl
  | d :: dims => by
    simp [List.replicate_succ, slabInExtent, slabInExtent_origin dims]

theorem slabPoints_row (i : Nat) (sizes : List Nat) :
    slabPoints (i :: List.replicate sizes.length 0) (1 :: sizes)
      = (slabPoints (List.replicate sizes.length 0) sizes).map fun q => i :: q := by
  simp [slabPoints, List.range_succ]

/-- Cutting a buffer into `P` elements of `sz` bytes and laying them end to end
gives back the first `P * sz` bytes of the buffer. -/
theorem chunks_flatten (buf : List Byte) (sz : Nat) (P : Nat) :
    ((List.range P).map fun k => (buf.drop (k * sz)).take sz).flatten = buf.take (P * sz) := by
  induction P with
  | zero => simp
  | succ P ih =>
    rw [List.range_succ, List.map_append, List.flatten_append, ih, Nat.succ_mul, List.take_add]
    simp

theorem H5Dread_row (ds : Dataset) (k i : Nat) (sizes : List Nat)
    (hdims : ds.dims = k :: sizes) (hi : i < k) :
    H5Dread ds (i :: List.replicate sizes.length 0) (1 :: sizes)
      = some ((slabPoints (List.replicate sizes.length 0) sizes).map
          fun q => ds.cells (i :: q)).flatten := by
  have hin : slabInExtent (k :: sizes) (i :: List.replicate sizes.length 0) (1 :: sizes)
      = true := by
    simp only [slabInExtent, slabInExtent_origin, Bool.and_true, decide_eq_true_eq]
    omega
  simp only [H5Dread, hdims, hin, if_true, slabPoints_row, List.map_map]
  rfl

/-- One successful write whose buffer holds exactly one row of elements of the
type of the stream appends that buffer as a new last row and leaves the rows
before it as they were. -/
theorem writeTensorData_StreamRows (T : Build) (td td' : TensorData) (tensor : Tensor)
    (name : String) (DType : ApproxType) (hdftype : HdfType) (sizes : List Nat)
    (rows : List (List Byte))
    (hinv : StreamRows td hdftype sizes rows)
    (hlen : tensor.data.length = numElements sizes * H5Tget_size hdftype)
    (hw : writeTensorData T td tensor name DType = .done td') :
    StreamRows td' hdftype sizes (rows ++ [tensor.data]) := by
  obtain ⟨hinit, hshape, hlt, htype, ds, hds, hdims, hmax, hrows⟩ := hinv
  obtain ⟨ds0, old, rest, ds1, memType, ds2, hds0, hshape0, h1, hmem, h2, rfl⟩ :=
    writeTensorData_done_inv T td tensor name DType td' hinit hw
  rw [hds] at hds0
  cases hds0
  rw [hshape] at hshape0
  cases hshape0
  rw [htype] at hmem
  cases hmem
  obtain ⟨_, rfl⟩ := H5Dset_extent_some h1
  obtain ⟨hslab, _, _, rfl⟩ := H5Dwrite_ok h2
  have hs := (slabInExtent_head hslab).1
  simp only at hs
  clear hw h1 h2 hslab
  have hnew : (rows.length + 1) % HSIZE_MOD = rows.length + 1 := by
    unfold HSIZE_MOD at *
    omega
  have hlt' : rows.length + 1 < HSIZE_MOD := by
    unfold HSIZE_MOD at *
    omega
  have hstart : ((rows.length + 1) % HSIZE_MOD + HSIZE_MOD - 1) % HSIZE_MOD = rows.length := by
    unfold HSIZE_MOD at *
    omega
  refine ⟨hinit, ?_, ?_, htype, _, rfl, ?_, hmax, ?_⟩
  · simp [hnew]
  · simpa using hlt'
  · simp [hnew]
  · intro i hi
    have hi' : i < rows.length + 1 := by simpa using hi
    rw [H5Dread_row _ (rows.length + 1) i sizes (by simp [hnew]) hi']
    simp only [hstart]
    by_cases hik : i < rows.length
    · -- an earlier row: outside the hyperslab of this write
      have hold := hrows i hik
      rw [H5Dread_row ds rows.length i sizes hdims hik] at hold
      have hgetL : (rows ++ [tensor.data]).get ⟨i, hi⟩ = rows.get ⟨i, hik⟩ := by
        simp only [List.get_eq_getElem]
        exact List.getElem_append_left hik
      rw [hgetL, ← hold]
      refine congrArg some (congrArg List.flatten (List.map_congr_left ?_))
      intro q hq
      have hq' := slabPoints_origin_inExtent sizes q hq
      have hns : inSlab (rows.length :: List.replicate sizes.length 0) (1 :: sizes) (i :: q)
          = false := by
        simp only [inSlab, Bool.and_eq_false_imp, Bool.and_eq_true, decide_eq_true_eq]
        intro h
        omega
      simp [hns, hdims, inExtent, hik, hq']
    · -- the new last row: the buffer, element after element in row-major order
      have hie : i = rows.length := by omega
      subst hie
      have hget : (rows ++ [tensor.data]).get ⟨rows.length, hi⟩ = tensor.data := by
        simp
      rw [hget]
      refine congrArg some ?_
      have hpts := slabPoints_offsets (rows.length :: List.replicate sizes.length 0) (1 :: sizes)
        (by simp)
      have hall := slabPoints_inSlab (rows.length :: List.replicate sizes.length 0) (1 :: sizes)
        (by simp)
      rw [slabPoints_row, List.map_map] at hpts
      have hP : numElements (1 :: sizes) = numElements sizes := by simp [numElements]
      rw [hP] at hpts
      have hcells : (slabPoints (List.replicate sizes.length 0) sizes).map
          (fun q => (if inSlab (rows.length :: List.replicate sizes.length 0) (1 :: sizes)
              (rows.length :: q) = true then
            (tensor.data.drop (slabOffset (rows.length :: List.replicate sizes.length 0)
              (1 :: sizes) (rows.length :: q) * H5Tget_size hdftype)).take (H5Tget_size hdftype)
          else if inExtent ds.dims (rows.length :: q) = true then ds.cells (rows.length :: q)
            else List.replicate (H5Tget_size ds.dtype) 0))
          = (List.range (numElements sizes)).map
              (fun k => (tensor.data.drop (k * H5Tget_size hdftype)).take
                (H5Tget_size hdftype)) := by
        rw [← hpts, List.map_map]
        apply List.map_congr_left
        intro q hq
        have := hall (rows.length :: q) (by
          rw [slabPoints_row]
          exact List.mem_map_of_mem _ hq)
        simp [this]
      refine Eq.trans (congrArg List.flatten hcells) ?_
      rw [chunks_flatten, ← hlen]
      exact List.take_length _

theorem writeTensorDataSeq_StreamRows (T : Build) (hdftype : HdfType) (sizes : List Nat)
    (calls : List (Tensor × String × ApproxType)) :
    ∀ (td td' : TensorData) (rows : List (List Byte)), StreamRows td hdftype sizes rows →
      (∀ c ∈ calls, c.1.data.length = numElements sizes * H5Tget_size hdftype) →
      writeTensorDataSeq T td calls = .done td' →
      StreamRows td' hdftype sizes (rows ++ calls.map fun c => c.1.data) := by
  induction calls with
  | nil =>
    intro td td' rows hinv _ hw
    simp only [writeTensorDataSeq] at hw
    cases hw
    simpa using hinv
  | cons c calls ih =>
    intro td td' rows hinv hlen hw
    obtain ⟨tensor, name, DType⟩ := c
    simp only [writeTensorDataSeq] at hw
    split at hw
    · cases hw
    · rename_i s hs
      have h1 := writeTensorData_StreamRows T td s tensor name DType hdftype sizes rows hinv
        (hlen _ (List.mem_cons_self _ _)) hs
      have h2 := ih s td' _ h1 (fun c hc => hlen c (List.mem_cons_of_mem _ hc)) hw
      simpa using h2

theorem StreamRows_initializedFrom (td : TensorData) (name : String) (tensor : Tensor)
    (DType : ApproxType) (hdftype : HdfType) (hshape : td.shape = []) :
    StreamRows (td.initializedFrom name tensor DType hdftype) hdftype tensor.sizes [] := by
  refine ⟨rfl, ?_, ?_, rfl, _, rfl, rfl, rfl, ?_⟩
  · simp [TensorData.initializedFrom, hshape]
  · simp [HSIZE_MOD]
  · intro i h
    simp at h

theorem StreamRows_readRow (td : TensorData) (hdftype : HdfType) (sizes : List Nat)
    (rows : List (List Byte))
    (hinv : StreamRows td hdftype sizes rows) (i : Nat) (h : i < rows.length) :
    td.readRow i = some (rows.get ⟨i, h⟩) := by
  obtain ⟨_, _, _, _, ds, hds, hdims, _, hrows⟩ := hinv
  simp only [TensorData.readRow, hds, hdims, List.length_cons, Nat.add_sub_cancel, List.tail_cons]
  exact hrows i h

/-- From the uninitialized stream on, a successful sequence of writes whose
buffers all hold exactly one row of elements of the type fixed at the first
write leaves a stream that holds exactly those buffers, in the order of the
writes. -/
theorem writeTensorDataSeq_from_uninit (T : Build) (td td' : TensorData)
    (writes : List (Tensor × String × ApproxType)) (sizes : List Nat) (hdftype : HdfType)
    (hun : td.initialized = false) (hshape : td.shape = [])
    (hne : writes ≠ [])
    (htype : ∀ c ∈ writes.head?, getHDF5TypeFromApproxType T c.2.2 = .ok hdftype)
    (hsizes : ∀ c ∈ writes, c.1.sizes = sizes)
    (hbytes : ∀ c ∈ writes, c.1.data.length = numElements c.1.sizes * H5Tget_size hdftype)
    (hw : writeTensorDataSeq T td writes = .done td') :
    StreamRows td' hdftype sizes (writes.map fun c => c.1.data) := by
  have hlen : ∀ c ∈ writes, c.1.data.length = numElements sizes * H5Tget_size hdftype := by
    intro c hc
    rw [hbytes c hc, hsizes c hc]
  cases writes with
  | nil => exact absurd rfl hne
  | cons c later =>
    obtain ⟨tensor, name, DType⟩ := c
    have hsz : tensor.sizes = sizes := hsizes _ (List.mem_cons_self _ _)
    have hty : getHDF5TypeFromApproxType T DType = .ok hdftype := htype _ rfl
    have hw' : writeTensorDataSeq T (td.initializedFrom name tensor DType hdftype)
        ((tensor, name, DType) :: later) = .done td' := by
      simp only [writeTensorDataSeq] at hw ⊢
      rw [← writeTensorData_uninit T td tensor name DType hdftype hun hty]
      exact hw
    have h0 := StreamRows_initializedFrom td name tensor DType hdftype hshape
    rw [hsz] at h0
    have := writeTensorDataSeq_StreamRows T hdftype sizes _ _ td' [] h0 hlen hw'
    simpa using this

/-- Claim C2, as amended: after a sequence of successful writes to a stream,
all with a payload of the shape fixed at the first write whose buffer holds
that many elements of the size of the scalar type fixed at the first write,
reading row `i` gives the bytes of the payload of the `i`-th write.  Each further write selects
exactly the hyperslab `start = [oldRowCount, 0, ..., 0]`,
`count = [1, shape...]` of the dataset extended by one row, and is passed the
type of the stream as memory type: the new last row receives the payload and
every row written before reads as it did. -/
theorem rows_hold_the_payloads (T : Build) (td td' : TensorData)
    (writes : List (Tensor × String × ApproxType)) (sizes : List Nat) (hdftype : HdfType)
    (hun : td.initialized = false) (hshape : td.shape = [])
    (htype : ∀ c ∈ writes.head?, getHDF5TypeFromApproxType T c.2.2 = .ok hdftype)
    (hsizes : ∀ c ∈ writes, c.1.sizes = sizes)
    (hbytes : ∀ c ∈ writes, c.1.data.length = numElements c.1.sizes * H5Tget_size hdftype)
    (hw : writeTensorDataSeq T td writes = .done td') :
    (∀ (i : Nat) (h : i < writes.length),
      td'.readRow i = some (writes.get ⟨i, h⟩).1.data) ∧
    (∀ (tensor : Tensor) (name : String) (DType : ApproxType) (td'' : TensorData),
      writes ≠ [] → tensor.data.length = numElements sizes * H5Tget_size hdftype →
      writeTensorData T td' tensor name DType = .done td'' →
      (∃ ds ds1 ds2, td'.dset = some ds ∧
        H5Dset_extent ds ((writes.length + 1) :: sizes) = some ds1 ∧
        H5Dwrite ds1 hdftype (1 :: sizes) (writes.length :: List.replicate sizes.length 0)
          (1 :: sizes) tensor.data = .ok ds2 ∧
        td''.dset = some ds2) ∧
      td''.readRow writes.length = some tensor.data ∧
      ∀ i, i < writes.length → td''.readRow i = td'.readRow i) := by
  constructor
  · intro i h
    have hne : writes ≠ [] := by
      intro hnil
      rw [hnil] at h
      simp at h
    have hinv := writeTensorDataSeq_from_uninit T td td' writes sizes hdftype hun hshape hne
      htype hsizes hbytes hw
    have h' : i < (writes.map fun c => c.1.data).length := by simpa using h
    rw [StreamRows_readRow td' hdftype sizes _ hinv i h']
    simp
  · intro tensor name DType td'' hne hlen hw2
    have hinv := writeTensorDataSeq_from_uninit T td td' writes sizes hdftype hun hshape hne
      htype hsizes hbytes hw
    have hinv2 := writeTensorData_StreamRows T td' td'' tensor name DType hdftype sizes _ hinv
      hlen hw2
    have hk : (writes.map fun c => c.1.data).length = writes.length := by simp
    refine ⟨?_, ?_, ?_⟩
    · obtain ⟨hinit, hshape', hlt, htd, ds, hds, hdims, _, _⟩ := hinv
      obtain ⟨ds0, old, rest, ds1, memType, ds2, hds0, hshape0, h1, hmem, h2, rfl⟩ :=
        writeTensorData_done_inv T td' tensor name DType td'' hinit hw2
      rw [hshape'] at hshape0
      cases hshape0
      rw [htd] at hmem
      cases hmem
      rw [hk] at h1 h2 hlt
      have hsl := (H5Dwrite_ok h2).1
      rw [(H5Dset_extent_some h1).2] at hsl
      have hs := (slabInExtent_head hsl).1
      have hnew : (writes.length + 1) % HSIZE_MOD = writes.length + 1 := by
        unfold HSIZE_MOD at *
        omega
      have hstart : ((writes.length + 1) % HSIZE_MOD + HSIZE_MOD - 1) % HSIZE_MOD
          = writes.length := by
        unfold HSIZE_MOD at *
        omega
      rw [hnew] at h1
      rw [hstart] at h2
      exact ⟨ds0, ds1, ds2, hds0, h1, h2, rfl⟩
    · have hi : writes.length < ((writes.map fun c => c.1.data) ++ [tensor.data]).length := by
        simp
      rw [StreamRows_readRow td'' hdftype sizes _ hinv2 writes.length hi]
      simp only [List.get_eq_getElem]
      rw [List.getElem_append_right (by simp)]
      simp
    · intro i hi
      have hi1 : i < (writes.map fun c => c.1.data).length := by simpa using hi
      have hi2 : i < ((writes.map fun c => c.1.data) ++ [tensor.data]).length := by
        simp; omega
      rw [StreamRows_readRow td'' hdftype sizes _ hinv2 i hi2,
        StreamRows_readRow td' hdftype sizes _ hinv i hi1]
      simp only [List.get_eq_getElem]
      rw [List.getElem_append_left hi1]

/-! ## Writes that return -/

theorem fitsMax_unlimited (k : Nat) (sizes : List Nat) :
    fitsMax (k :: sizes) (H5S_UNLIMITED :: sizes) = true := by
  simp [fitsMax, fitsMax_self]

/-- A write to an initialized stream returns when the next row count is a
value of `hsize_t` and the buffer holds at least one row of elements of the
type of the stream. -/
theorem writeTensorData_returns (T : Build) (td : TensorData) (tensor : Tensor)
    (name : String) (DType : ApproxType) (hdftype : HdfType) (sizes : List Nat)
    (rows : List (List Byte))
    (hinv : StreamRows td hdftype sizes rows)
    (hk : rows.length + 1 < HSIZE_MOD)
    (hlen : numElements sizes * H5Tget_size hdftype ≤ tensor.data.length) :
    ∃ td', writeTensorData T td tensor name DType = .done td' := by
  obtain ⟨hinit, hshape, _, htype, ds, hds, hdims, hm, _⟩ := hinv
  have hnew : (rows.length + 1) % HSIZE_MOD = rows.length + 1 := Nat.mod_eq_of_lt hk
  have hstart : (rows.length + 1 + HSIZE_MOD - 1) % HSIZE_MOD = rows.length := by
    have h1 : rows.length + 1 + HSIZE_MOD - 1 = rows.length + HSIZE_MOD := by omega
    rw [h1, Nat.add_mod_right]
    exact Nat.mod_eq_of_lt (by omega)
  cases hw : writeTensorData T td tensor name DType with
  | done td' => exact ⟨td', rfl⟩
  | abort e s =>
    exfalso
    unfold writeTensorData at hw
    simp only [TensorData.isInitialized, hinit, Bool.not_true, Bool.false_eq_true,
      if_false] at hw
    split at hw
    · rename_i hnone
      rw [hds] at hnone
      cases hnone
    · rename_i ds0 hds0
      rw [hds] at hds0
      cases hds0
      split at hw
      · rename_i hsh
        rw [hshape] at hsh
        cases hsh
      · rename_i old rest hsh
        rw [hshape] at hsh
        cases hsh
        split at hw
        · rename_i hnone
          rw [hnew] at hnone
          simp only [H5Dset_extent, hm, fitsMax_unlimited, if_true] at hnone
          cases hnone
        · rename_i ds1 h1
          split at hw
          · rename_i hnone
            rw [htype] at hnone
            cases hnone
          · rename_i memType hmem
            rw [htype] at hmem
            cases hmem
            split at hw
            · rename_i e' he'
              rw [hnew] at h1 he'
              rw [hstart] at he'
              obtain ⟨_, rfl⟩ := H5Dset_extent_some h1
              have hin : slabInExtent ((rows.length + 1) :: sizes)
                  (rows.length :: List.replicate sizes.length 0) (1 :: sizes) = true := by
                simp [slabInExtent, slabInExtent_origin]
              have hnlt : ¬ tensor.data.length < numElements (1 :: sizes) * H5Tget_size hdftype := by
                simp only [numElements, Nat.one_mul]
                omega
              simp only [H5Dwrite, hin, decide_True, Bool.and_self, if_true, hnlt,
                if_false] at he'
              cases he'
            · cases hw

theorem writeTensorDataSeq_returns_initialized (T : Build) (hdftype : HdfType)
    (sizes : List Nat) (calls : List (Tensor × String × ApproxType)) :
    ∀ (td : TensorData) (rows : List (List Byte)), StreamRows td hdftype sizes rows →
      (∀ c ∈ calls, c.1.data.length = numElements sizes * H5Tget_size hdftype) →
      rows.length + calls.length < HSIZE_MOD →
      ∃ td', writeTensorDataSeq T td calls = .done td' := by
  induction calls with
  | nil =>
    intro td rows _ _ _
    exact ⟨td, rfl⟩
  | cons c calls ih =>
    intro td rows hinv hlen hk
    obtain ⟨tensor, name, DType⟩ := c
    have hl := hlen _ (List.mem_cons_self _ _)
    simp only [List.length_cons] at hk
    obtain ⟨s, hs⟩ := writeTensorData_returns T td tensor name DType hdftype sizes rows hinv
      (by omega) (by simp only at hl; omega)
    have hinv' := writeTensorData_StreamRows T td s tensor name DType hdftype sizes rows hinv
      hl hs
    obtain ⟨td', htd'⟩ := ih s _ hinv' (fun c hc => hlen c (List.mem_cons_of_mem _ hc))
      (by simp only [List.length_append, List.length_singleton]; omega)
    exact ⟨td', by simp only [writeTensorDataSeq, hs]; exact htd'⟩

/-- Successful sequences of writes exist for every length below `2 ^ 64`: from
the uninitialized stream, writes whose payloads all have the shape `sizes` and
a buffer of that many elements of the size of the type fixed at the first
write return when the type mapper accepts the scalar type of the first one. -/
theorem writeTensorDataSeq_returns (T : Build) (td : TensorData)
    (tensor : Tensor) (name : String) (DType : ApproxType) (hdftype : HdfType)
    (later : List (Tensor × String × ApproxType)) (sizes : List Nat)
    (hun : td.initialized = false) (hshape : td.shape = [])
    (hty : getHDF5TypeFromApproxType T DType = .ok hdftype)
    (hsizes : ∀ c ∈ (tensor, name, DType) :: later, c.1.sizes = sizes)
    (hbytes : ∀ c ∈ (tensor, name, DType) :: later,
      c.1.data.length = numElements c.1.sizes * H5Tget_size hdftype)
    (hk : later.length + 1 < HSIZE_MOD) :
    ∃ td', writeTensorDataSeq T td ((tensor, name, DType) :: later) = .done td' := by
  have hlen : ∀ c ∈ (tensor, name, DType) :: later,
      c.1.data.length = numElements sizes * H5Tget_size hdftype := by
    intro c hc
    rw [hbytes c hc, hsizes c hc]
  have hsz : tensor.sizes = sizes := hsizes _ (List.mem_cons_self _ _)
  have h0 := StreamRows_initializedFrom td name tensor DType hdftype hshape
  rw [hsz] at h0
  obtain ⟨td', htd'⟩ := writeTensorDataSeq_returns_initialized T hdftype sizes
    ((tensor, name, DType) :: later) (td.initializedFrom name tensor DType hdftype) [] h0
    hlen (by simp only [List.length_nil, List.length_cons]; omega)
  refine ⟨td', ?_⟩
  simp only [writeTensorDataSeq] at htd' ⊢
  rw [writeTensorData_uninit T td tensor name DType hdftype hun hty]
  exact htd'

/-! ## The theorems at the example scenario -/

theorem alternating_writes_row_counts_witness :
    exampleRegion.isFresh ∧ exampleCalls.length = 2 * 2 ∧
    writeTensorSeq (specBuild false) exampleRegion exampleCalls
      = .done (writeTensorSeq (specBuild false) exampleRegion exampleCalls).state ∧
    (writeTensorSeq (specBuild false) exampleRegion exampleCalls).state.IptTensorData.rowCount
      = 2 ∧
    (writeTensorSeq (specBuild false) exampleRegion exampleCalls).state.OptTensorData.rowCount
      = 2 ∧
    (writeTensorSeq (specBuild false) exampleRegion exampleCalls).state.expect_input = true :=
  have h := (alternating_writes_row_counts (specBuild false) exampleRegion 2 ⟨rfl, rfl, rfl⟩).1
    exampleCalls _ rfl rfl
  ⟨⟨rfl, rfl, rfl⟩, rfl, rfl, h.1, h.2.1, h.2.2.1⟩

theorem rows_hold_the_payloads_witness :
    TensorData.fresh.initialized = false ∧ TensorData.fresh.shape = [] ∧
    getHDF5TypeFromApproxType (specBuild false) 0 = .ok .H5T_NATIVE_DOUBLE ∧
    (∀ c ∈ exampleWrites.take 2, c.1.sizes = [2]) ∧
    (∀ c ∈ exampleWrites.take 2,
      c.1.data.length = numElements c.1.sizes * H5Tget_size .H5T_NATIVE_DOUBLE) ∧
    writeTensorDataSeq (specBuild false) TensorData.fresh (exampleWrites.take 2)
      = .done (writeTensorDataSeq (specBuild false) TensorData.fresh
          (exampleWrites.take 2)).state ∧
    (writeTensorDataSeq (specBuild false) TensorData.fresh (exampleWrites.take 2)).state.readRow 0
      = some exampleInput.data ∧
    (writeTensorDataSeq (specBuild false) TensorData.fresh (exampleWrites.take 2)).state.readRow 1
      = some exampleInput2.data :=
  have h := (rows_hold_the_payloads (specBuild false) TensorData.fresh _ (exampleWrites.take 2)
    [2] .H5T_NATIVE_DOUBLE rfl rfl (fun c hc => by cases hc; rfl) (by decide) (by decide)
    rfl).1
  ⟨rfl, rfl, rfl, by decide, by decide, rfl, h 0 (by decide), h 1 (by decide)⟩

/-- A payload of the fixed shape that holds elements of another scalar type is
not read back.  On a stream of 32-bit integers, fixed by the first write, the
write of the two long integers `[7, 8]`, sixteen bytes of shape `[2]`,
returns; row 1 then reads as the first eight bytes of the payload, the 32-bit
integers `[7, 0]`. -/
theorem rows_hold_the_payloads_counterexample :
    (∀ c ∈ mismatchWrites, c.1.sizes = [2]) ∧
    (mismatchWrites.get ⟨0, by decide⟩).1.data.length
      = numElements [2] * H5Tget_size .H5T_NATIVE_INT ∧
    (mismatchWrites.get ⟨1, by decide⟩).1.data.length
      = numElements [2] * H5Tget_size .H5T_NATIVE_LONG ∧
    writeTensorDataSeq (specBuild false) TensorData.fresh mismatchWrites
      = .done (writeTensorDataSeq (specBuild false) TensorData.fresh mismatchWrites).state ∧
    (writeTensorDataSeq (specBuild false) TensorData.fresh mismatchWrites).state.readRow 1
      = some (leBytes 4 7 ++ leBytes 4 0) ∧
    ¬ (∀ (i : Nat) (h : i < mismatchWrites.length),
      (writeTensorDataSeq (specBuild false) TensorData.fresh mismatchWrites).state.readRow i
        = some (mismatchWrites.get ⟨i, h⟩).1.data) := by
  refine ⟨by decide, by decide, by decide, rfl, by decide, ?_⟩
  intro h
  have h1 := h 1 (by decide)
  revert h1
  decide

theorem writeTensor_twice_counterexample :
    exampleRegion.isFresh ∧
    writeTensor (specBuild false) exampleRegion exampleInput 0
      = .done (writeTensor (specBuild false) exampleRegion exampleInput 0).state ∧
    writeTensor (specBuild false)
        (writeTensor (specBuild false) exampleRegion exampleInput 0).state exampleInput 0
      = .done (writeTensorSeq (specBuild false) exampleRegion
          [(exampleInput, 0), (exampleInput, 0)]).state ∧
    (writeTensorSeq (specBuild false) exampleRegion
      [(exampleInput, 0), (exampleInput, 0)]).state.OptTensorData.rowCount = 1 ∧
    ¬ (∃ s, writeTensor (specBuild false)
        (writeTensor (specBuild false) exampleRegion exampleInput 0).state exampleInput 0
          = .abort .AlternationViolationError s ∧ s.OptTensorData.rowCount = 0) := by
  refine ⟨⟨rfl, rfl, rfl⟩, rfl, rfl, rfl, ?_⟩
  rintro ⟨s, hs, _⟩
  have h2 : writeTensor (specBuild false)
      (writeTensor (specBuild false) exampleRegion exampleInput 0).state exampleInput 0
      = .done (writeTensorSeq (specBuild false) exampleRegion
          [(exampleInput, 0), (exampleInput, 0)]).state := rfl
  rw [h2] at hs
  cases hs

theorem writeTensor_twice_on_fresh_region_witness :
    exampleRegion.isFresh ∧
    writeTensor (specBuild false) exampleRegion exampleInput 0
      = .done (writeTensor (specBuild false) exampleRegion exampleInput 0).state ∧
    writeTensor (specBuild false)
        (writeTensor (specBuild false) exampleRegion exampleInput 0).state exampleOutput 0
      = .done (writeTensorSeq (specBuild false) exampleRegion
          [(exampleInput, 0), (exampleOutput, 0)]).state ∧
    (writeTensorSeq (specBuild false) exampleRegion
      [(exampleInput, 0), (exampleOutput, 0)]).state.IptTensorData.rowCount = 1 ∧
    (writeTensorSeq (specBuild false) exampleRegion
      [(exampleInput, 0), (exampleOutput, 0)]).state.OptTensorData.rowCount = 1 ∧
    (writeTensorSeq (specBuild false) exampleRegion
      [(exampleInput, 0), (exampleOutput, 0)]).state.expect_input = true :=
  have h := (writeTensor_twice_on_fresh_region (specBuild false) exampleRegion _ exampleInput
    exampleOutput 0 0 ⟨rfl, rfl, rfl⟩ rfl).2.2.2.2.2 _ rfl
  ⟨⟨rfl, rfl, rfl⟩, rfl, rfl, h.2.1, h.2.2.1, h.2.2.2⟩

theorem writeOutputTensor_on_fresh_region_witness :
    exampleRegion.isFresh ∧
    ((specBuild false).NDEBUG = false ∧
      writeOutputTensor (specBuild false) exampleRegion exampleOutput 0
        = .abort .AlternationViolationError exampleRegion) ∧
    ((specBuild true).NDEBUG = true ∧
      writeOutputTensor (specBuild true) exampleRegion exampleOutput 0
        = .done (writeOutputTensor (specBuild true) exampleRegion exampleOutput 0).state ∧
      (writeOutputTensor (specBuild true) exampleRegion exampleOutput
        0).state.OptTensorData.rowCount = 1 ∧
      (writeOutputTensor (specBuild true) exampleRegion exampleOutput
        0).state.IptTensorData = exampleRegion.IptTensorData ∧
      (writeOutputTensor (specBuild true) exampleRegion exampleOutput
        0).state.expect_input = true) :=
  have hd := ((writeOutputTensor_on_fresh_region (specBuild false) exampleRegion exampleOutput 0
    ⟨rfl, rfl, rfl⟩).1 rfl).1
  have hn := ((writeOutputTensor_on_fresh_region (specBuild true) exampleRegion exampleOutput 0
    ⟨rfl, rfl, rfl⟩).2 rfl).2.2 _ rfl
  ⟨⟨rfl, rfl, rfl⟩, ⟨rfl, hd⟩, rfl, rfl, hn.2.1, hn.2.2.1, hn.2.2.2⟩

theorem TensorToDB_checks_handle_witness :
    (5 ≥ exampleDB.regions.length ∧
      TensorToDB (specBuild false) exampleDB 5 exampleInput 0
        = .abort .InvalidHandleError exampleDB) ∧
    (1 < exampleDB.regions.length ∧
      ¬ ∃ s, TensorToDB (specBuild false) exampleDB 1 exampleInput 0
        = .abort .InvalidHandleError s) :=
  ⟨⟨by decide, (TensorToDB_checks_handle (specBuild false) exampleDB 5 exampleInput 0).2.1
      (by decide)⟩,
    by decide, fun h =>
      absurd ((TensorToDB_checks_handle (specBuild false) exampleDB 1 exampleInput 0).1.1 h)
        (by decide)⟩

theorem TensorToDB_changes_only_its_region_witness :
    0 < exampleDB.regions.length ∧ (1 : Nat) ≠ 0 ∧ 1 < exampleDB.regions.length ∧
    (TensorToDB (specBuild false) exampleDB 0 exampleInput 0).state.regions.length = 2 ∧
    (TensorToDB (specBuild false) exampleDB 0 exampleInput 0).state.regions[1]?
      = exampleDB.regions[1]? :=
  have h := TensorToDB_changes_only_its_region (specBuild false) exampleDB 0 exampleInput 0
    (by decide)
  ⟨by decide, by decide, by decide, h.1, (h.2 1 (by decide) (by decide)).1⟩

theorem writeTensorData_keeps_type_and_row_shape_witness :
    (writeTensorDataSeq (specBuild false) TensorData.fresh
      (exampleWrites.take 2)).state.initialized = true ∧
    (writeTensorDataSeq (specBuild false) TensorData.fresh
      (exampleWrites.take 2)).state.rowCount < HSIZE_MOD ∧
    writeTensorData (specBuild false)
        (writeTensorDataSeq (specBuild false) TensorData.fresh (exampleWrites.take 2)).state
        exampleOther "input" 2
      = .done (writeTensorDataSeq (specBuild false) TensorData.fresh exampleWrites).state ∧
    (writeTensorDataSeq (specBuild false) TensorData.fresh exampleWrites).state.approx_type
      = some 0 ∧
    (writeTensorDataSeq (specBuild false) TensorData.fresh exampleWrites).state.hdf_native_type
      = some .H5T_NATIVE_DOUBLE ∧
    (writeTensorDataSeq (specBuild false) TensorData.fresh exampleWrites).state.shape.tail
      = [2] ∧
    (writeTensorDataSeq (specBuild false) TensorData.fresh exampleWrites).state.rowCount
      = 2 + 1 :=
  have h := writeTensorData_keeps_type_and_row_shape (specBuild false)
    (writeTensorDataSeq (specBuild false) TensorData.fresh (exampleWrites.take 2)).state
    exampleOther "input" 2 _ rfl (by decide) rfl
  ⟨rfl, by decide, rfl, h.1, h.2.1, h.2.2.1, h.2.2.2.1⟩

theorem type_attribute_is_first_scalar_type_witness :
    TensorData.fresh.initialized = false ∧
    writeTensorData (specBuild false) TensorData.fresh exampleInput "input" 0
      = .done (writeTensorData (specBuild false) TensorData.fresh exampleInput "input" 0).state ∧
    ∃ ds, (writeTensorDataSeq (specBuild false)
        (writeTensorData (specBuild false) TensorData.fresh exampleInput "input" 0).state
        (exampleWrites.drop 1)).state.dset = some ds ∧
      ds.attrs = [("type", 0)] :=
  have ⟨ds, h1, h2, _⟩ := type_attribute_is_first_scalar_type (specBuild false) TensorData.fresh
    _ exampleInput "input" 0 (exampleWrites.drop 1) rfl rfl
  ⟨rfl, rfl, ds, h1, h2⟩

theorem getHDF5TypeFromApproxType_unlisted_witness :
    (specBuild false).defs.lookup (specBuild false).INVALID = none ∧
    getHDF5TypeFromApproxType (specBuild false) (specBuild false).INVALID
      = .error .MissingReturn ∧
    getHDF5TypeFromApproxType (specBuild false) (specBuild false).INVALID
      ≠ .error .UnsupportedTypeError :=
  have h := getHDF5TypeFromApproxType_unlisted (specBuild false) (specBuild false).INVALID
    (by decide)
  ⟨by decide, h.1, h.2.1⟩

theorem initializeTensorData_creates_growable_dataset_witness :
    TensorData.fresh.initialized = false ∧ TensorData.fresh.shape = [] ∧
    getHDF5TypeFromApproxType (specBuild false) 0 = .ok .H5T_NATIVE_DOUBLE ∧
    ∃ td' ds, initializeTensorData (specBuild false) TensorData.fresh "input" exampleInput 0
        = .done td' ∧
      td'.dset = some ds ∧ ds.dims = [0, 2] ∧ ds.maxDims = [H5S_UNLIMITED, 2] ∧
      ds.chunkDims = [1, 2] ∧ td'.shape = [0, 2] ∧ td'.initialized = true :=
  have ⟨td', ds, h1, h2, _, h4, h5, h6, _, _, h9, h10, _⟩ :=
    (initializeTensorData_creates_growable_dataset (specBuild false) TensorData.fresh "input"
      exampleInput 0).1 .H5T_NATIVE_DOUBLE rfl rfl rfl
  ⟨rfl, rfl, rfl, td', ds, h1, h2, h4, h5, h6, h9, h10⟩

end ApproxDB
